import Mathlib

/-!
Verification of the MatchPulse football-simulation engine.

This file gives a shallow embedding, in Lean 4, of the core simulation
functions of the MatchPulse API server (a Go program), together with
theorems settling the stated properties of its specification.

Modelling conventions, shared by all sections below:
* Go machine integers become `Nat` or `Int` (no overflow is reachable in
  the modelled code paths); Go `float64` values become `ℚ`, so that all
  arithmetic is exact.
* Go maps keyed by id become association lists or lists scanned by id;
  Go pointer mutation becomes functional record update.
* Calls to the pseudo-random source become explicit parameters (an index
  for a uniform pick, a `Bool` for a threshold draw), and the wall clock
  becomes an explicit `ℚ` timestamp parameter, matching the spec view of
  both as environment inputs.
* Wall-clock bookkeeping fields that no modelled computation reads
  (`ScheduledAt`, `LastUpdate`, `EndTime`, commentary rings, log output)
  are omitted from the record types.
-/

/-! Section: String and numeric constants (source: constant block of the main file) -/

def StatusLive : String := "LIVE"

def StatusHalftime : String := "HALFTIME"

def StatusFinished : String := "FINISHED"

def StatusBreak : String := "BREAK"

def LeaguePremier : String := "Premier League"

def LeagueCommunityLeague : String := "Community League"

def PosGK : String := "GK"

def PosST : String := "ST"

def PosCAM : String := "CAM"

def PosLW : String := "LW"

def PosRW : String := "RW"

def PlayerAvailable : String := "available"

def PlayerRedCard : String := "red_card"

def MatchDurationSeconds : ℕ := 90

def HalftimeBreakSeconds : ℚ := 15

def SeasonMatches : ℕ := 38

def MaxSeasonHistory : ℕ := 10

def MaxSimultaneousMatches : ℕ := 4

/-! Section: Fixture generation (source: `generateRoundMatches`, `generateSeasonSchedule`)

Teams are represented by their ids; `generateRoundMatches` in the source
operates on a slice of `*TeamInfo` but reads nothing except identity. -/

structure RoundMatch where
  home : ℕ
  away : ℕ
deriving DecidableEq, Repr

/-- One fixture of a season schedule (source type `SeasonSchedule`; the
`ScheduledAt` wall-clock stamp is omitted, team pointers become ids). -/
structure SeasonSchedule where
  matchday : ℕ
  league : String
  homeTeam : ℕ
  awayTeam : ℕ
  isPlayed : Bool
  matchID : ℕ
deriving DecidableEq, Repr

/-- Source `generateRoundMatches`: one round of the rotate-and-fix
round-robin. The odd-team-count guard returns an empty round; the index
guards mirror the Go bounds checks. -/
def generateRoundMatches (teams : List ℕ) (round : ℕ) : List RoundMatch :=
  let n := teams.length
  if n % 2 ≠ 0 then []
  else
    (List.range (n / 2)).filterMap (fun i =>
      let team1Idx := i
      let team2Idx0 := (n - 1 - i + round) % (n - 1)
      let team2Idx := if team1Idx ≤ team2Idx0 then team2Idx0 + 1 else team2Idx0
      if team1Idx < teams.length ∧ team2Idx < teams.length ∧ team1Idx ≠ team2Idx then
        some ⟨teams.getD team1Idx 0, teams.getD team2Idx 0⟩
      else none)

/-- Source `generateSeasonSchedule`: first leg over `teamCount - 1` rounds
with matchdays numbered from 1, then the return leg with home and away
swapped and matchday numbering continuing. The team-count sanity check
against the league config (which merely aborts generation) is assumed to
pass. -/
def generateSeasonSchedule (league : String) (leagueTeams : List ℕ) : List SeasonSchedule :=
  let totalRounds := leagueTeams.length - 1
  let firstLeg :=
    ((List.range totalRounds).map (fun round =>
      (generateRoundMatches leagueTeams round).map (fun m =>
        SeasonSchedule.mk (round + 1) league m.home m.away false 0))).flatten
  let returnLeg :=
    ((List.range totalRounds).map (fun round =>
      (generateRoundMatches leagueTeams round).map (fun m =>
        SeasonSchedule.mk (totalRounds + round + 1) league m.away m.home false 0))).flatten
  firstLeg ++ returnLeg

/-- Number of fixtures of a schedule that pair teams `a` and `b` (either venue). -/
def fixturesBetween (schedules : List SeasonSchedule) (a b : ℕ) : ℕ :=
  schedules.countP (fun sch =>
    (sch.homeTeam == a && sch.awayTeam == b) || (sch.homeTeam == b && sch.awayTeam == a))

/-- Number of fixtures of a schedule in which team `a` takes part. -/
def fixturesOf (schedules : List SeasonSchedule) (a : ℕ) : ℕ :=
  schedules.countP (fun sch => sch.homeTeam == a || sch.awayTeam == a)

/-! Section: Shared data model

Subsets of the source record types carrying exactly the fields the
modelled functions read or write. `PlayerSeasonStats` is flattened into
`Player` (the source holds it as an embedded struct). -/

/-- Source type `Match`; team snapshots become team ids, wall-clock
fields become `ℚ` timestamps. -/
structure Match where
  id : ℕ
  homeTeamID : ℕ
  awayTeamID : ℕ
  homeScore : ℕ
  awayScore : ℕ
  minute : ℤ
  status : String
  competition : String
  season : ℕ
  matchweekNum : ℕ
  startTime : ℚ
  halftimeEndTime : ℚ
  isInBreak : Bool
  injuryTime : ℕ
deriving DecidableEq, Repr

/-- Source type `TeamInfo` (identity, league membership and the derived
form points, which is all the modelled functions read). -/
structure TeamInfo where
  id : ℕ
  league : String
  formPoints : ℤ
deriving DecidableEq, Repr

/-- Source type `Player` with its embedded `PlayerSeasonStats` flattened
(`GoalsThisSeason` becomes `seasonGoals`, and so on). -/
structure Player where
  id : ℕ
  teamID : ℕ
  position : String
  goals : ℕ
  assists : ℕ
  yellowCards : ℕ
  redCards : ℕ
  seasonGoals : ℕ
  seasonAssists : ℕ
  seasonYellowCards : ℕ
  seasonRedCards : ℕ
  seasonMatchesPlayed : ℕ
  seasonAverageRating : ℚ
  currentRating : ℚ
deriving DecidableEq, Repr

/-- Source type `LeagueTable` (one standings row; the embedded team
snapshot becomes a team id). -/
structure LeagueTable where
  position : ℕ
  teamID : ℕ
  played : ℕ
  won : ℕ
  drawn : ℕ
  lost : ℕ
  goalsFor : ℕ
  goalsAgainst : ℕ
  goalDiff : ℤ
  points : ℤ
deriving DecidableEq, Repr

/-- Source type `SeasonHistory` (award snapshots become ids). -/
structure SeasonHistory where
  season : ℕ
  topScorerID : ℕ
  topAssistsID : ℕ
  mostFoulsID : ℕ
  playerOfSeasonID : ℕ
  championTeamID : ℕ
  totalGoals : ℕ
  totalMatches : ℕ
deriving DecidableEq, Repr

/-- The process-wide mutable state of the simulation: the global maps and
counters of the source, with the two-league `seasonSchedules` and
`leagueTables` maps split into their two entries. -/
structure SimState where
  teams : List TeamInfo
  premierSchedules : List SeasonSchedule
  communitySchedules : List SeasonSchedule
  activeMatches : List Match
  finishedMatches : List Match
  matchCounter : ℕ
  currentSeason : ℕ
  currentMatchweek : ℕ
  seasonHistory : List SeasonHistory
  players : List Player
  premierTable : List LeagueTable
  communityTable : List LeagueTable
deriving DecidableEq, Repr

/-! Section: Fixture selection and match creation (source: `getNextUnplayedMatch`,
`getMatchForLeastPlayedTeams`, `getTeamMatchesPlayed`, `createNextMatch`) -/

/-- Lookup in the `seasonSchedules` map; both league keys are present
after initialization. -/
def schedulesFor (st : SimState) (league : String) : List SeasonSchedule :=
  if league == LeaguePremier then st.premierSchedules
  else if league == LeagueCommunityLeague then st.communitySchedules
  else []

/-- The two-league iteration order used throughout the source. -/
def allSchedules (st : SimState) : List SeasonSchedule :=
  schedulesFor st LeaguePremier ++ schedulesFor st LeagueCommunityLeague

/-- Source `getTeamMatchesPlayed`. -/
def getTeamMatchesPlayed (st : SimState) (teamID : ℕ) : ℕ :=
  (allSchedules st).countP (fun sch =>
    sch.isPlayed && (sch.homeTeam == teamID || sch.awayTeam == teamID))

/-- Source `getMinimumMatchesPlayed` (fold starting from the sentinel 999). -/
def getMinimumMatchesPlayed (st : SimState) : ℕ :=
  st.teams.foldl (fun minMatches team =>
    if getTeamMatchesPlayed st team.id < minMatches then getTeamMatchesPlayed st team.id
    else minMatches) 999

/-- Source `getMaximumMatchesPlayed`. -/
def getMaximumMatchesPlayed (st : SimState) : ℕ :=
  st.teams.foldl (fun maxMatches team =>
    if maxMatches < getTeamMatchesPlayed st team.id then getTeamMatchesPlayed st team.id
    else maxMatches) 0

/-- Source `getMatchForLeastPlayedTeams`: first unplayed fixture, in league
then schedule order, whose two teams have both played `min` or `min + 1`
matches. -/
def getMatchForLeastPlayedTeams (st : SimState) : Option SeasonSchedule :=
  let minMatchesPlayed := getMinimumMatchesPlayed st
  (allSchedules st).find? (fun sch =>
    !sch.isPlayed &&
    ((getTeamMatchesPlayed st sch.homeTeam == minMatchesPlayed ||
      getTeamMatchesPlayed st sch.homeTeam == minMatchesPlayed + 1) &&
     (getTeamMatchesPlayed st sch.awayTeam == minMatchesPlayed ||
      getTeamMatchesPlayed st sch.awayTeam == minMatchesPlayed + 1)))

/-- Insertion step of the matchday sort (the source sorts with
`sort.Slice` by `Matchday`). -/
def insertByMatchday (sch : SeasonSchedule) : List SeasonSchedule → List SeasonSchedule
  | [] => [sch]
  | b :: bs => if sch.matchday < b.matchday then sch :: b :: bs else b :: insertByMatchday sch bs

/-- Sort of the unplayed fixtures by matchday. -/
def sortByMatchday (l : List SeasonSchedule) : List SeasonSchedule :=
  l.foldr insertByMatchday []

/-- Source `getNextUnplayedMatch`: when the played-count spread exceeds 2,
try the catch-up pick and fall back to the first unplayed fixture;
otherwise take the chronologically first unplayed fixture, per league,
whose teams are within 2 of the minimum played count. -/
def getNextUnplayedMatch (st : SimState) : Option SeasonSchedule :=
  let minMatchesPlayed := getMinimumMatchesPlayed st
  let maxMatchesPlayed := getMaximumMatchesPlayed st
  if (2 : ℤ) < (maxMatchesPlayed : ℤ) - (minMatchesPlayed : ℤ) then
    match getMatchForLeastPlayedTeams st with
    | some m => some m
    | none => (allSchedules st).find? (fun sch => !sch.isPlayed)
  else
    [LeaguePremier, LeagueCommunityLeague].findSome? (fun league =>
      let sortedSchedules := sortByMatchday ((schedulesFor st league).filter (fun sch => !sch.isPlayed))
      sortedSchedules.find? (fun sch =>
        decide (getTeamMatchesPlayed st sch.homeTeam ≤ minMatchesPlayed + 2) &&
        decide (getTeamMatchesPlayed st sch.awayTeam ≤ minMatchesPlayed + 2)))

/-- The count of LIVE, HALFTIME or BREAK matches of one league (the loop
at the head of source `createNextMatch`). -/
def leagueActiveCount (activeMatches : List Match) (league : String) : ℕ :=
  activeMatches.countP (fun m =>
    (m.status == StatusLive || m.status == StatusHalftime || m.status == StatusBreak) &&
    m.competition == league)

/-- Pointer write `scheduledMatch.IsPlayed = true; scheduledMatch.MatchID = id`:
the selected fixture is an element of the schedule list, so the write
updates its first occurrence. -/
def markSchedulePlayed (l : List SeasonSchedule) (target : SeasonSchedule) (newMatchID : ℕ) :
    List SeasonSchedule :=
  match l with
  | [] => []
  | sch :: rest =>
    if sch = target then { sch with isPlayed := true, matchID := newMatchID } :: rest
    else sch :: markSchedulePlayed rest target newMatchID

/-- Source `createNextMatch`: select a fixture, re-check its played flag,
enforce the per-league cap, then mark the fixture played and add the new
LIVE match. `now` models `time.Now()` and `injuryTime` the 0-6 random
draw; the probability, momentum and availability map initialisations are
modelled in the sections dealing with those components. -/
def createNextMatch (st : SimState) (now : ℚ) (injuryTime : ℕ) : SimState :=
  match getNextUnplayedMatch st with
  | none => st
  | some scheduledMatch =>
    if scheduledMatch.isPlayed then st
    else if MaxSimultaneousMatches ≤ leagueActiveCount st.activeMatches scheduledMatch.league then st
    else
      let matchCounter := st.matchCounter + 1
      let newMatch : Match :=
        { id := matchCounter
          homeTeamID := scheduledMatch.homeTeam
          awayTeamID := scheduledMatch.awayTeam
          homeScore := 0
          awayScore := 0
          minute := 0
          status := StatusLive
          competition := scheduledMatch.league
          season := st.currentSeason
          matchweekNum := scheduledMatch.matchday
          startTime := now
          halftimeEndTime := 0
          isInBreak := false
          injuryTime := injuryTime }
      { st with
        matchCounter := matchCounter
        premierSchedules :=
          if scheduledMatch.league == LeaguePremier then
            markSchedulePlayed st.premierSchedules scheduledMatch matchCounter
          else st.premierSchedules
        communitySchedules :=
          if scheduledMatch.league == LeagueCommunityLeague then
            markSchedulePlayed st.communitySchedules scheduledMatch matchCounter
          else st.communitySchedules
        activeMatches := st.activeMatches ++ [newMatch] }

theorem mem_insertByMatchday {x sch : SeasonSchedule} {l : List SeasonSchedule} :
    x ∈ insertByMatchday sch l ↔ x = sch ∨ x ∈ l := by
  induction l with
  | nil => simp [insertByMatchday]
  | cons b bs ih =>
    by_cases h : sch.matchday < b.matchday
    · simp [insertByMatchday, h]
    · simp [insertByMatchday, h, ih]
      tauto

theorem mem_sortByMatchday {x : SeasonSchedule} {l : List SeasonSchedule} :
    x ∈ sortByMatchday l ↔ x ∈ l := by
  induction l with
  | nil => simp [sortByMatchday]
  | cons a as ih =>
    show x ∈ insertByMatchday a (sortByMatchday as) ↔ _
    rw [mem_insertByMatchday]
    simp [ih, eq_comm]

theorem getNextUnplayedMatch_not_played {st : SimState} {sch : SeasonSchedule}
    (h : getNextUnplayedMatch st = some sch) : sch.isPlayed = false := by
  simp only [getNextUnplayedMatch] at h
  by_cases hgt :
      (2 : ℤ) < (getMaximumMatchesPlayed st : ℤ) - (getMinimumMatchesPlayed st : ℤ)
  · rw [if_pos hgt] at h
    rcases hm : getMatchForLeastPlayedTeams st with _ | m
    · rw [hm] at h
      have hp := List.find?_some h
      simpa using hp
    · rw [hm] at h
      cases h
      unfold getMatchForLeastPlayedTeams at hm
      have hp := List.find?_some hm
      simp only [Bool.and_eq_true, Bool.not_eq_true'] at hp
      exact hp.1
  · rw [if_neg hgt] at h
    obtain ⟨league, -, hf⟩ := List.exists_of_findSome?_eq_some h
    have hmem := List.mem_of_find?_eq_some hf
    rw [mem_sortByMatchday, List.mem_filter] at hmem
    simpa using hmem.2

theorem leagueActiveCount_append (a b : List Match) (league : String) :
    leagueActiveCount (a ++ b) league = leagueActiveCount a league + leagueActiveCount b league := by
  simp [leagueActiveCount, List.countP_append]

theorem leagueActiveCount_singleton_le (m : Match) (league : String) :
    leagueActiveCount [m] league ≤ 1 := by
  simpa using List.countP_le_length
    (p := fun m : Match =>
      (m.status == StatusLive || m.status == StatusHalftime || m.status == StatusBreak) &&
      m.competition == league) (l := [m])

theorem leagueActiveCount_singleton_ne (m : Match) (league : String)
    (h : m.competition ≠ league) : leagueActiveCount [m] league = 0 := by
  have : (m.competition == league) = false := by simpa using h
  simp [leagueActiveCount, this]

/-- C2. Fixture selection never returns a fixture whose played flag is
set, and match creation never pushes a league past
`MaxSimultaneousMatches` concurrently active matches: when the selected
fixture's league is at the cap, no new match object is created. -/
theorem c2_selection_unplayed_and_capacity (st : SimState) (now : ℚ) (injuryTime : ℕ)
    (sch : SeasonSchedule) (league : String)
    (hcap : ∀ lg, leagueActiveCount st.activeMatches lg ≤ MaxSimultaneousMatches) :
    (getNextUnplayedMatch st = some sch → sch.isPlayed = false) ∧
    leagueActiveCount (createNextMatch st now injuryTime).activeMatches league ≤
      MaxSimultaneousMatches ∧
    (getNextUnplayedMatch st = some sch →
      leagueActiveCount st.activeMatches sch.league = MaxSimultaneousMatches →
      (createNextMatch st now injuryTime).activeMatches = st.activeMatches) := by
  refine ⟨fun h => getNextUnplayedMatch_not_played h, ?_, ?_⟩
  · unfold createNextMatch
    rcases hm : getNextUnplayedMatch st with _ | s
    · exact hcap league
    · by_cases hp : s.isPlayed = true
      · simp [hp]
        exact hcap league
      · simp [hp]
        by_cases hc : MaxSimultaneousMatches ≤ leagueActiveCount st.activeMatches s.league
        · simp [hc]
          exact hcap league
        · simp [hc]
          have hlt : leagueActiveCount st.activeMatches s.league < MaxSimultaneousMatches :=
            Nat.lt_of_not_le hc
          rw [leagueActiveCount_append]
          by_cases hl : s.league = league
          · subst hl
            have key : ∀ x : Match,
                leagueActiveCount st.activeMatches s.league + leagueActiveCount [x] s.league ≤
                  MaxSimultaneousMatches := fun x =>
              le_trans (Nat.add_le_add_left (leagueActiveCount_singleton_le x s.league) _)
                (by omega)
            exact key _
          · have key : ∀ x : Match, x.competition ≠ league →
                leagueActiveCount st.activeMatches league + leagueActiveCount [x] league ≤
                  MaxSimultaneousMatches := fun x hx => by
              rw [leagueActiveCount_singleton_ne x league hx]
              simpa using hcap league
            exact key _ hl
  · intro h hfull
    unfold createNextMatch
    rw [h]
    by_cases hp : sch.isPlayed = true
    · simp [hp]
    · simp [hp, hfull, le_refl]

/-- A concrete state for the C2 witness: one unplayed Premier League
fixture, no active matches. -/
def c2State : SimState :=
  { teams := [⟨1, LeaguePremier, 0⟩, ⟨2, LeaguePremier, 0⟩]
    premierSchedules := [⟨1, LeaguePremier, 1, 2, false, 0⟩]
    communitySchedules := []
    activeMatches := []
    finishedMatches := []
    matchCounter := 0
    currentSeason := 1
    currentMatchweek := 1
    seasonHistory := []
    players := []
    premierTable := []
    communityTable := [] }

/-- Witness for C2 at the concrete state `c2State`. -/
theorem c2_selection_unplayed_and_capacity_witness :
    (getNextUnplayedMatch c2State = some ⟨1, LeaguePremier, 1, 2, false, 0⟩ →
      (⟨1, LeaguePremier, 1, 2, false, 0⟩ : SeasonSchedule).isPlayed = false) ∧
    leagueActiveCount (createNextMatch c2State 0 3).activeMatches LeaguePremier ≤
      MaxSimultaneousMatches ∧
    (getNextUnplayedMatch c2State = some ⟨1, LeaguePremier, 1, 2, false, 0⟩ →
      leagueActiveCount c2State.activeMatches LeaguePremier = MaxSimultaneousMatches →
      (createNextMatch c2State 0 3).activeMatches = c2State.activeMatches) :=
  c2_selection_unplayed_and_capacity c2State 0 3 ⟨1, LeaguePremier, 1, 2, false, 0⟩
    LeaguePremier (fun lg => by simp [leagueActiveCount, c2State])

/-! Section: Match lifecycle (source: `updateLiveMatchWithBreaks`, driven by the
2-second ticker of `matchEngine`) -/

/-- Go `int(x)` conversion from `float64`: truncation toward zero. -/
def goInt (q : ℚ) : ℤ :=
  if 0 ≤ q then ⌊q⌋ else ⌈q⌉

/-- Source `updateLiveMatchWithBreaks`, evaluated at wall-clock time
`now`. On a LIVE match: recompute the minute from elapsed seconds, enter
HALFTIME when the recomputed minute lies in `[45, 46)`, finish when
elapsed time reaches `90 + injuryTime`; on HALFTIME: once the break end
passed, return to LIVE and shift the start time forward by the break
duration. Event generation, positioning and statistics updates touch
neither `minute`, `status` nor `startTime` and are modelled in their own
sections; the BREAK case is a no-op here as in the source. -/
def updateLiveMatchWithBreaks (now : ℚ) (m : Match) : Match :=
  let elapsed := now - m.startTime
  if m.status = StatusLive then
    let m := { m with minute := goInt elapsed }
    if 45 ≤ m.minute ∧ m.minute < 46 then
      { m with status := StatusHalftime
               halftimeEndTime := now + HalftimeBreakSeconds
               isInBreak := true }
    else
      if ((MatchDurationSeconds : ℚ) + (m.injuryTime : ℚ)) ≤ elapsed then
        { m with status := StatusFinished }
      else m
  else if m.status = StatusHalftime then
    if m.halftimeEndTime < now then
      { m with status := StatusLive
               isInBreak := false
               startTime := m.startTime + (now - (m.halftimeEndTime - HalftimeBreakSeconds)) }
    else m
  else m

/-- A live match about to cross minute 45, used by the C3 theorems. -/
def c3Match : Match :=
  { id := 1, homeTeamID := 1, awayTeamID := 2, homeScore := 0, awayScore := 0,
    minute := 0, status := StatusLive, competition := LeaguePremier, season := 1,
    matchweekNum := 1, startTime := 0, halftimeEndTime := 0, isInBreak := false,
    injuryTime := 0 }

/-- C3 counterexample. The halftime transition fires only when a tick
observes a computed minute equal to 45, but the engine ticks every 2
seconds while one elapsed second is one minute, so a tick sequence can
pass minute 45 without observing it: ticks at elapsed 44.5s and 46.5s
leave the match LIVE at minute 46, never entering HALFTIME, refuting
"for every tick sequence, a live match whose minute passes 45 enters
HALFTIME rather than continuing play". -/
theorem c3_halftime_skipped_counterexample :
    (updateLiveMatchWithBreaks (89/2) c3Match).status = StatusLive ∧
    (updateLiveMatchWithBreaks (89/2) c3Match).minute = 44 ∧
    (updateLiveMatchWithBreaks (93/2) (updateLiveMatchWithBreaks (89/2) c3Match)).status =
      StatusLive ∧
    (updateLiveMatchWithBreaks (93/2) (updateLiveMatchWithBreaks (89/2) c3Match)).minute = 46 ∧
    (updateLiveMatchWithBreaks (93/2) (updateLiveMatchWithBreaks (89/2) c3Match)).isInBreak =
      false := by
  have e1 : updateLiveMatchWithBreaks (89/2) c3Match = { c3Match with minute := 44 } := by
    simp only [updateLiveMatchWithBreaks, c3Match, goInt, MatchDurationSeconds,
      HalftimeBreakSeconds, StatusLive]
    norm_num
  have e2 : updateLiveMatchWithBreaks (93/2) ({ c3Match with minute := 44 }) =
      { c3Match with minute := 46 } := by
    simp only [updateLiveMatchWithBreaks, c3Match, goInt, MatchDurationSeconds,
      HalftimeBreakSeconds, StatusLive]
    norm_num
  rw [e1, e2]
  exact ⟨rfl, rfl, rfl, rfl, rfl⟩

/-- C3 (amended). When a tick at time `t` does observe a computed minute
of 45, the match enters HALFTIME at minute 45 with the break end set 15
seconds ahead, and the first tick after the break end returns it to LIVE
with the start time shifted so that elapsed time — hence the minute
counter — resumes exactly from its value at the transition (in `[45, 46)`),
continuing to 46 without skipping or repeating a minute. -/
theorem c3_halftime_amended (m : Match) (t t₂ : ℚ)
    (hlive : m.status = StatusLive)
    (hmin : goInt (t - m.startTime) = 45)
    (ht₂ : t + HalftimeBreakSeconds < t₂) :
    (updateLiveMatchWithBreaks t m).status = StatusHalftime ∧
    (updateLiveMatchWithBreaks t m).minute = 45 ∧
    (updateLiveMatchWithBreaks t m).isInBreak = true ∧
    (updateLiveMatchWithBreaks t m).halftimeEndTime = t + HalftimeBreakSeconds ∧
    (updateLiveMatchWithBreaks t₂ (updateLiveMatchWithBreaks t m)).status = StatusLive ∧
    (updateLiveMatchWithBreaks t₂ (updateLiveMatchWithBreaks t m)).minute = 45 ∧
    (updateLiveMatchWithBreaks t₂ (updateLiveMatchWithBreaks t m)).isInBreak = false ∧
    t₂ - (updateLiveMatchWithBreaks t₂ (updateLiveMatchWithBreaks t m)).startTime =
      t - m.startTime := by
  have h1 : updateLiveMatchWithBreaks t m =
      { m with minute := 45, status := StatusHalftime,
               halftimeEndTime := t + HalftimeBreakSeconds, isInBreak := true } := by
    unfold updateLiveMatchWithBreaks
    rw [if_pos hlive, hmin]
    norm_num
  have hneq : StatusHalftime ≠ StatusLive := by decide
  have h2 : updateLiveMatchWithBreaks t₂ (updateLiveMatchWithBreaks t m) =
      { m with minute := 45, status := StatusLive, isInBreak := false,
               halftimeEndTime := t + HalftimeBreakSeconds,
               startTime := m.startTime + (t₂ - ((t + HalftimeBreakSeconds) -
                 HalftimeBreakSeconds)) } := by
    rw [h1]
    unfold updateLiveMatchWithBreaks
    rw [if_neg (by simpa using hneq), if_pos rfl, if_pos (by simpa using ht₂)]
  refine ⟨by rw [h1], by rw [h1], by rw [h1], by rw [h1], by rw [h2], by rw [h2],
    by rw [h2], ?_⟩
  rw [h2]
  show t₂ - (m.startTime + (t₂ - (t + HalftimeBreakSeconds - HalftimeBreakSeconds))) =
    t - m.startTime
  ring

/-- Witness for C3 (amended): the concrete match `c3Match` ticked at 45s
and then at 61s. -/
theorem c3_halftime_amended_witness :
    (updateLiveMatchWithBreaks 45 c3Match).status = StatusHalftime ∧
    (updateLiveMatchWithBreaks 45 c3Match).minute = 45 ∧
    (updateLiveMatchWithBreaks 45 c3Match).isInBreak = true ∧
    (updateLiveMatchWithBreaks 45 c3Match).halftimeEndTime = 45 + HalftimeBreakSeconds ∧
    (updateLiveMatchWithBreaks 61 (updateLiveMatchWithBreaks 45 c3Match)).status = StatusLive ∧
    (updateLiveMatchWithBreaks 61 (updateLiveMatchWithBreaks 45 c3Match)).minute = 45 ∧
    (updateLiveMatchWithBreaks 61 (updateLiveMatchWithBreaks 45 c3Match)).isInBreak = false ∧
    (61 : ℚ) - (updateLiveMatchWithBreaks 61 (updateLiveMatchWithBreaks 45 c3Match)).startTime =
      45 - c3Match.startTime :=
  c3_halftime_amended c3Match 45 61 rfl
    (by simp only [c3Match, goInt]; norm_num)
    (by rw [HalftimeBreakSeconds]; norm_num)

/-! Section: Season lifecycle (source: `shouldEndSeason`, `endSeason`,
`resetForNewSeason`, `startNewSeason`, award scans)

The award scans iterate a Go map; the model scans the player list in
order, which resolves the same max-by-field winners whenever they are
unique. -/

/-- Source `shouldEndSeason`: every fixture of every league is played. -/
def shouldEndSeason (st : SimState) : Bool :=
  (schedulesFor st LeaguePremier).all (fun sch => sch.isPlayed) &&
  (schedulesFor st LeagueCommunityLeague).all (fun sch => sch.isPlayed)

/-- Source `findTopScorer`: strict max-by season goals starting from 0,
falling back to an arbitrary player when nobody scored. -/
def findTopScorer (players : List Player) : Option Player :=
  let top := players.foldl (fun acc p =>
    if acc.2 < p.seasonGoals then (some p, p.seasonGoals) else acc)
    ((none : Option Player), 0)
  match top.1 with
  | some p => some p
  | none => players.head?

/-- Source `findTopAssists`. -/
def findTopAssists (players : List Player) : Option Player :=
  let top := players.foldl (fun acc p =>
    if acc.2 < p.seasonAssists then (some p, p.seasonAssists) else acc)
    ((none : Option Player), 0)
  match top.1 with
  | some p => some p
  | none => players.head?

/-- Source `findMostFouls` (yellow cards plus twice the red cards). -/
def findMostFouls (players : List Player) : Option Player :=
  let top := players.foldl (fun acc p =>
    if acc.2 < p.seasonYellowCards + p.seasonRedCards * 2 then
      (some p, p.seasonYellowCards + p.seasonRedCards * 2)
    else acc) ((none : Option Player), 0)
  match top.1 with
  | some p => some p
  | none => players.head?

/-- Source `findPlayerOfSeason` (best average rating with at least 10
appearances). -/
def findPlayerOfSeason (players : List Player) : Option Player :=
  let top := players.foldl (fun acc p =>
    if acc.2 < p.seasonAverageRating ∧ 10 ≤ p.seasonMatchesPlayed then
      (some p, p.seasonAverageRating)
    else acc) ((none : Option Player), (0 : ℚ))
  match top.1 with
  | some p => some p
  | none => players.head?

/-- Source `calculateSeasonWinner`: head of the Premier League table,
falling back to an arbitrary team. -/
def calculateSeasonWinner (st : SimState) : ℕ :=
  match st.premierTable.head? with
  | some row => row.teamID
  | none =>
    match st.teams.head? with
    | some team => team.id
    | none => 0

/-- Source `calculateTotalSeasonGoals`. -/
def calculateTotalSeasonGoals (players : List Player) : ℕ :=
  (players.map (fun p => p.seasonGoals)).sum

/-- Source `getTeamsByLeague`. -/
def getTeamsByLeague (st : SimState) (league : String) : List TeamInfo :=
  st.teams.filter (fun team => team.league == league)

/-- Fresh zeroed standings rows (source `initializeLeagueTables`, one league). -/
def freshLeagueTable (leagueTeams : List TeamInfo) : List LeagueTable :=
  leagueTeams.enum.map (fun p =>
    { position := p.1 + 1, teamID := p.2.id, played := 0, won := 0, drawn := 0,
      lost := 0, goalsFor := 0, goalsAgainst := 0, goalDiff := 0, points := 0 })

/-- Source `initializeLeagueTables`. -/
def initializeLeagueTables (st : SimState) : SimState :=
  { st with
    premierTable := freshLeagueTable (getTeamsByLeague st LeaguePremier)
    communityTable := freshLeagueTable (getTeamsByLeague st LeagueCommunityLeague) }

/-- Source `resetForNewSeason`: fold every player's season totals into the
career totals, zero the season stats, reset the transient rating, and
reinitialize the league tables. The season schedules are not touched. -/
def resetForNewSeason (st : SimState) : SimState :=
  let st := { st with players := st.players.map (fun p =>
    { p with goals := p.goals + p.seasonGoals
             assists := p.assists + p.seasonAssists
             yellowCards := p.yellowCards + p.seasonYellowCards
             redCards := p.redCards + p.seasonRedCards
             seasonGoals := 0, seasonAssists := 0, seasonYellowCards := 0
             seasonRedCards := 0, seasonMatchesPlayed := 0
             seasonAverageRating := 0, currentRating := 6 }) }
  initializeLeagueTables st

/-- Source `endSeason`: compute awards, build and append the bounded
history record, reset for the new season, then advance the season
counter. The four award scans return a nil pointer exactly when the
player pool is empty, and building the history record dereferences all
four (`TopScorer: *topScorer`, ...), so on an empty pool the source
panics before appending anything or touching any counter: that path is
`none` here. No fixture regeneration happens in either outcome. -/
def endSeason (st : SimState) : Option SimState :=
  match findTopScorer st.players, findTopAssists st.players, findMostFouls st.players,
      findPlayerOfSeason st.players with
  | some topScorer, some topAssists, some mostFouls, some playerOfSeason =>
    let seasonRecord : SeasonHistory :=
      { season := st.currentSeason
        topScorerID := topScorer.id
        topAssistsID := topAssists.id
        mostFoulsID := mostFouls.id
        playerOfSeasonID := playerOfSeason.id
        championTeamID := calculateSeasonWinner st
        totalGoals := calculateTotalSeasonGoals st.players
        totalMatches := SeasonMatches }
    let st := { st with seasonHistory :=
      let h := st.seasonHistory ++ [seasonRecord]
      if MaxSeasonHistory < h.length then h.drop 1 else h }
    let st := resetForNewSeason st
    some { st with currentSeason := st.currentSeason + 1, currentMatchweek := 1 }
  | _, _, _, _ => none

/-- Source `startNewSeason` (run right after `endSeason` by the season
manager): advance the season counter again, reset the matchweek and
clear the finished-match archive. Its body ends in the elided comment
"Reset other season-related data ... existing code ..."; no fixture
regeneration happens here either. -/
def startNewSeason (st : SimState) : SimState :=
  { st with currentSeason := st.currentSeason + 1
            currentMatchweek := 1
            finishedMatches := [] }

/-- A player of the C4 state with ordinary season statistics, so every
award scan succeeds and the end-of-season run takes the normal path. -/
def c4Player : Player :=
  { id := 7, teamID := 1, position := PosST, goals := 3, assists := 1,
    yellowCards := 0, redCards := 0, seasonGoals := 2, seasonAssists := 1,
    seasonYellowCards := 1, seasonRedCards := 0, seasonMatchesPlayed := 2,
    seasonAverageRating := 7, currentRating := 6 }

/-- A completed season: every fixture of the single populated league is
played, and the player pool is non-empty (so the award scans succeed). -/
def c4State : SimState :=
  { teams := [⟨1, LeaguePremier, 0⟩, ⟨2, LeaguePremier, 0⟩]
    premierSchedules := [⟨1, LeaguePremier, 1, 2, true, 1⟩, ⟨2, LeaguePremier, 2, 1, true, 2⟩]
    communitySchedules := []
    activeMatches := []
    finishedMatches := []
    matchCounter := 2
    currentSeason := 1
    currentMatchweek := 3
    seasonHistory := []
    players := [c4Player]
    premierTable := []
    communityTable := [] }

/-- C4. Season completion is detected exactly when every fixture is
played, and at `c4State` the end-of-season run completes normally
(`endSeason` returns a state: the award scans all find player 7, the
history record is appended), but the processing regenerates no fixtures
— the schedules, all played, are left untouched, so no unplayed fixture
exists for the next season — and the season counter advances by two,
once in `endSeason` and once more in `startNewSeason`, refuting
"regenerates fresh (unplayed) fixtures for all leagues and advances the
season counter by one". -/
theorem c4_seasonEnd_no_regeneration_bug :
    shouldEndSeason c4State = true ∧
    (endSeason c4State).isSome = true ∧
    ((endSeason c4State).map (fun st => (startNewSeason st).currentSeason)) = some 3 ∧
    ((endSeason c4State).map (fun st => (startNewSeason st).premierSchedules)) =
      some c4State.premierSchedules ∧
    ((endSeason c4State).map (fun st => (startNewSeason st).communitySchedules)) = some [] ∧
    ((endSeason c4State).map (fun st => (startNewSeason st).premierSchedules.countP
      (fun sch => !sch.isPlayed))) = some 0 ∧
    ((endSeason c4State).map (fun st => (startNewSeason st).seasonHistory.length)) =
      some 1 ∧
    ((endSeason c4State).map (fun st =>
      (startNewSeason st).seasonHistory.map (fun record => record.topScorerID))) =
      some [7] := by
  decide

/-! Section: Player availability, cards and fouls (source: `isPlayerAvailable`,
`setPlayerUnavailable`, `getAvailablePlayersForMatch`, `handleCardEvent`,
`applyFoulConsequences`)

The per-match `playerAvailability[matchID]` map becomes a list of
entries for the one match under consideration; the per-match
`matchStats[matchID]` counters become fields of `CardState`. -/

/-- Source type `PlayerAvailability`. -/
structure PlayerAvailability where
  playerID : ℕ
  status : String
  unavailableFrom : ℤ
  reason : String
deriving DecidableEq, Repr

/-- The per-match state the card and foul handlers read and write. -/
structure CardState where
  players : List Player
  availability : List PlayerAvailability
  homeYellowCards : ℕ
  homeRedCards : ℕ
  awayYellowCards : ℕ
  awayRedCards : ℕ
  homeFouls : ℕ
  awayFouls : ℕ
deriving DecidableEq, Repr

/-- Source `isPlayerAvailable`: no entry means available. -/
def isPlayerAvailable (availability : List PlayerAvailability) (playerID : ℕ) : Bool :=
  match availability.find? (fun a => a.playerID == playerID) with
  | none => true
  | some a => a.status == PlayerAvailable

/-- Source `setPlayerUnavailable` (map overwrite at the player key). -/
def setPlayerUnavailable (availability : List PlayerAvailability) (playerID : ℕ)
    (status : String) (minute : ℤ) (reason : String) : List PlayerAvailability :=
  availability.filter (fun a => !(a.playerID == playerID)) ++
    [⟨playerID, status, minute, reason⟩]

/-- Source `getPlayersFromTeam`. -/
def getPlayersFromTeam (players : List Player) (teamID : ℕ) : List Player :=
  players.filter (fun p => p.teamID == teamID)

/-- Source `getAvailablePlayersForMatch`: both rosters filtered by
availability. -/
def getAvailablePlayersForMatch (st : CardState) (homeTeamID awayTeamID : ℕ) : List Player :=
  (getPlayersFromTeam st.players homeTeamID ++ getPlayersFromTeam st.players awayTeamID).filter
    (fun p => isPlayerAvailable st.availability p.id)

/-- Pointer mutation of one player in the global `players` map. -/
def updatePlayerById (players : List Player) (playerID : ℕ) (f : Player → Player) :
    List Player :=
  players.map (fun p => if p.id == playerID then f p else p)

/-- Source `handleCardEvent`. `randIdx` models the `rand.Intn` pick over
the availability-filtered pool and `isRed` the 10 percent red-card draw.
The red branch books the card, marks the player unavailable with reason
"Direct red card", and (modelled in their own sections) updates momentum
and probabilities; the yellow branch only books the card. -/
def handleCardEvent (st : CardState) (homeTeamID awayTeamID : ℕ) (minute : ℤ)
    (randIdx : ℕ) (isRed : Bool) : CardState :=
  let availablePlayers := getAvailablePlayersForMatch st homeTeamID awayTeamID
  match availablePlayers.get? (randIdx % availablePlayers.length) with
  | none => st
  | some player =>
    let isHomePlayer := player.teamID == homeTeamID
    let st :=
      if isRed then
        { st with
          players := updatePlayerById st.players player.id (fun p =>
            { p with redCards := p.redCards + 1
                     seasonRedCards := p.seasonRedCards + 1
                     currentRating := p.currentRating - 2 })
          availability := setPlayerUnavailable st.availability player.id
            PlayerRedCard minute "Direct red card" }
      else
        { st with players := updatePlayerById st.players player.id (fun p =>
            { p with yellowCards := p.yellowCards + 1
                     seasonYellowCards := p.seasonYellowCards + 1
                     currentRating := p.currentRating - 1/2 }) }
    if isHomePlayer then
      if isRed then { st with homeRedCards := st.homeRedCards + 1 }
      else { st with homeYellowCards := st.homeYellowCards + 1 }
    else
      if isRed then { st with awayRedCards := st.awayRedCards + 1 }
      else { st with awayYellowCards := st.awayYellowCards + 1 }

/-- Source `applyFoulConsequences` (the card-booking part; the restart
decision only repositions the ball). Note that, unlike the red branch of
`handleCardEvent`, this function never writes the availability map. -/
def applyFoulConsequences (st : CardState) (homeTeamID : ℕ) (fouler : Player)
    (minute : ℤ) (severity : String) : CardState :=
  let st :=
    if fouler.teamID == homeTeamID then { st with homeFouls := st.homeFouls + 1 }
    else { st with awayFouls := st.awayFouls + 1 }
  if severity == "yellow" then
    let st := { st with players := updatePlayerById st.players fouler.id (fun p =>
      { p with yellowCards := p.yellowCards + 1
               seasonYellowCards := p.seasonYellowCards + 1
               currentRating := p.currentRating - 3/10 }) }
    if fouler.teamID == homeTeamID then { st with homeYellowCards := st.homeYellowCards + 1 }
    else { st with awayYellowCards := st.awayYellowCards + 1 }
  else if severity == "red" then
    let st := { st with players := updatePlayerById st.players fouler.id (fun p =>
      { p with redCards := p.redCards + 1
               seasonRedCards := p.seasonRedCards + 1
               currentRating := p.currentRating - 3/2 }) }
    if fouler.teamID == homeTeamID then { st with homeRedCards := st.homeRedCards + 1 }
    else { st with awayRedCards := st.awayRedCards + 1 }
  else st

/-- A default outfield player for the concrete C5 state. -/
def c5Player (pid teamID : ℕ) : Player :=
  { id := pid, teamID := teamID, position := "CB", goals := 0, assists := 0,
    yellowCards := 0, redCards := 0, seasonGoals := 0, seasonAssists := 0,
    seasonYellowCards := 0, seasonRedCards := 0, seasonMatchesPlayed := 0,
    seasonAverageRating := 0, currentRating := 6 }

/-- Concrete C5 state: home team 10 with players 1 and 2, away team 20
with players 3 and 4, nobody unavailable yet. -/
def c5State : CardState :=
  { players := [c5Player 1 10, c5Player 2 10, c5Player 3 20, c5Player 4 20]
    availability := []
    homeYellowCards := 0, homeRedCards := 0, awayYellowCards := 0, awayRedCards := 0
    homeFouls := 0, awayFouls := 0 }

/-- C5. A red card issued through the foul path (`applyFoulConsequences`
with severity "red", which announces the player as sent off) books the
card but never writes the availability map: the player stays in every
subsequent selection pool and has no unavailable-players entry, refuting
the claim for that event path. The direct-card path (`handleCardEvent`)
does mark the player unavailable with the minute and a non-empty reason. -/
theorem c5_foul_red_card_not_marked_unavailable_bug :
    (applyFoulConsequences c5State 10 (c5Player 1 10) 30 "red").availability = [] ∧
    isPlayerAvailable (applyFoulConsequences c5State 10 (c5Player 1 10) 30 "red").availability
      1 = true ∧
    ((getAvailablePlayersForMatch (applyFoulConsequences c5State 10 (c5Player 1 10) 30 "red")
      10 20).map (fun p => p.id)) = [1, 2, 3, 4] ∧
    (applyFoulConsequences c5State 10 (c5Player 1 10) 30 "red").homeRedCards = 1 ∧
    (handleCardEvent c5State 10 20 30 0 true).availability =
      [⟨1, PlayerRedCard, 30, "Direct red card"⟩] ∧
    isPlayerAvailable (handleCardEvent c5State 10 20 30 0 true).availability 1 = false ∧
    ((getAvailablePlayersForMatch (handleCardEvent c5State 10 20 30 0 true) 10 20).map
      (fun p => p.id)) = [2, 3, 4] := by
  decide

/-! Section: Momentum (source: `updateMatchMomentum`) -/

/-- Source type `MatchMomentum` (the wall-clock `LastUpdateTime` is
omitted). -/
structure MatchMomentum where
  homeTeamMomentum : ℚ
  awayTeamMomentum : ℚ
  lastGoalTime : ℤ
  lastGoalTeam : ℕ
  lastRedCardTime : ℤ
  lastRedCardTeam : ℕ
  consecutiveGoals : ℕ
  pressureIndex : ℚ
deriving DecidableEq, Repr

/-- Source `updateMatchMomentum`: per-event fixed deltas on the switch of
`eventType`, then both scalars clamped to `[-1, 1]`. The nil-entry
initialisation of the momentum map (a fresh zero record) is the caller's
choice of the `momentum` argument. -/
def updateMatchMomentum (momentum : MatchMomentum) (homeTeamID : ℕ) (eventType : String)
    (affectedTeamID : ℕ) (minute : ℤ) : MatchMomentum :=
  let isHomeTeam := affectedTeamID == homeTeamID
  let momentum :=
    if eventType == "goal" then
      let momentum :=
        if isHomeTeam then
          { momentum with homeTeamMomentum := momentum.homeTeamMomentum + 3/10
                          awayTeamMomentum := momentum.awayTeamMomentum - 2/10 }
        else
          { momentum with awayTeamMomentum := momentum.awayTeamMomentum + 3/10
                          homeTeamMomentum := momentum.homeTeamMomentum - 2/10 }
      { momentum with lastGoalTime := minute
                      lastGoalTeam := affectedTeamID
                      consecutiveGoals := momentum.consecutiveGoals + 1 }
    else if eventType == "red_card" then
      let momentum :=
        if isHomeTeam then
          { momentum with homeTeamMomentum := momentum.homeTeamMomentum - 4/10
                          awayTeamMomentum := momentum.awayTeamMomentum + 2/10 }
        else
          { momentum with awayTeamMomentum := momentum.awayTeamMomentum - 4/10
                          homeTeamMomentum := momentum.homeTeamMomentum + 2/10 }
      { momentum with lastRedCardTime := minute, lastRedCardTeam := affectedTeamID }
    else if eventType == "corner" then
      let adjustment : ℚ := 1/10
      if isHomeTeam then
        { momentum with homeTeamMomentum := momentum.homeTeamMomentum + adjustment }
      else
        { momentum with awayTeamMomentum := momentum.awayTeamMomentum + adjustment }
    else if eventType == "foul" then
      let adjustment : ℚ := 5/100
      if isHomeTeam then
        { momentum with homeTeamMomentum := momentum.homeTeamMomentum - adjustment }
      else
        { momentum with awayTeamMomentum := momentum.awayTeamMomentum - adjustment }
    else momentum
  { momentum with
    homeTeamMomentum := max (-1) (min 1 momentum.homeTeamMomentum)
    awayTeamMomentum := max (-1) (min 1 momentum.awayTeamMomentum) }

/-- The zero momentum record created when a match starts
(`createNextMatch`) or when the momentum map has no entry yet. -/
def initialMomentum : MatchMomentum :=
  { homeTeamMomentum := 0, awayTeamMomentum := 0, lastGoalTime := 0, lastGoalTeam := 0,
    lastRedCardTime := 0, lastRedCardTeam := 0, consecutiveGoals := 0, pressureIndex := 0 }

/-- C8. After any momentum update — whatever the event type, affected
team or prior (even out-of-range) values — both momentum scalars lie in
`[-1, 1]`; the initial record of `createNextMatch` lies there as well. -/
theorem c8_momentum_clamped (momentum : MatchMomentum) (homeTeamID : ℕ) (eventType : String)
    (affectedTeamID : ℕ) (minute : ℤ) :
    (-1 ≤ (updateMatchMomentum momentum homeTeamID eventType affectedTeamID
        minute).homeTeamMomentum ∧
      (updateMatchMomentum momentum homeTeamID eventType affectedTeamID
        minute).homeTeamMomentum ≤ 1) ∧
    (-1 ≤ (updateMatchMomentum momentum homeTeamID eventType affectedTeamID
        minute).awayTeamMomentum ∧
      (updateMatchMomentum momentum homeTeamID eventType affectedTeamID
        minute).awayTeamMomentum ≤ 1) ∧
    (-1 ≤ initialMomentum.homeTeamMomentum ∧ initialMomentum.homeTeamMomentum ≤ 1) ∧
    (-1 ≤ initialMomentum.awayTeamMomentum ∧ initialMomentum.awayTeamMomentum ≤ 1) := by
  have hclamp : ∀ x : ℚ, -1 ≤ max (-1) (min 1 x) ∧ max (-1) (min 1 x) ≤ 1 := fun x =>
    ⟨le_max_left _ _, max_le (by norm_num) (min_le_left _ _)⟩
  refine ⟨?_, ?_, by norm_num [initialMomentum], by norm_num [initialMomentum]⟩
  · simpa only [updateMatchMomentum] using hclamp _
  · simpa only [updateMatchMomentum] using hclamp _

/-- C7 counterexample. A corner for the home team adjusts only the
credited team's momentum: the opponent's scalar is left untouched (0)
rather than moved by the opposite delta (-1/10), refuting "corners and
fouls affect both teams symmetrically". -/
theorem c7_corner_oneSided_counterexample :
    (updateMatchMomentum initialMomentum 1 "corner" 1 10).homeTeamMomentum = 1/10 ∧
    (updateMatchMomentum initialMomentum 1 "corner" 1 10).awayTeamMomentum = 0 ∧
    (updateMatchMomentum initialMomentum 1 "corner" 1 10).awayTeamMomentum ≠ -1/10 ∧
    (updateMatchMomentum initialMomentum 1 "foul" 1 10).homeTeamMomentum = -1/20 ∧
    (updateMatchMomentum initialMomentum 1 "foul" 1 10).awayTeamMomentum = 0 := by
  have s1 : ¬(("corner" : String) = "goal") := by decide
  have s2 : ¬(("corner" : String) = "red_card") := by decide
  have s3 : ¬(("foul" : String) = "goal") := by decide
  have s4 : ¬(("foul" : String) = "red_card") := by decide
  have s5 : ¬(("foul" : String) = "corner") := by decide
  refine ⟨?_, ?_, ?_, ?_, ?_⟩ <;>
    simp only [updateMatchMomentum, initialMomentum, beq_iff_eq, if_neg s1, if_neg s2,
      if_neg s3, if_neg s4, if_neg s5, if_pos rfl] <;>
    norm_num [max_def, min_def]

/-- C7 (amended). The momentum deltas are exactly: goal +3/10 to the
scoring team and -2/10 to its opponent; red card -4/10 to the carded
team and +2/10 to its opponent; corner +1/10 to the credited team only;
foul -1/20 to the fouling team only — the opponent scalar is unchanged
for corners and fouls — each result clamped to `[-1, 1]`; any other
event string leaves both scalars unchanged apart from the clamp, and no
update happens without an event (the function is invoked only by the
event handlers). -/
theorem c7_momentum_deltas_amended (momentum : MatchMomentum)
    (homeTeamID affectedTeamID : ℕ) (minute : ℤ) (e : String)
    (he : e ≠ "goal" ∧ e ≠ "red_card" ∧ e ≠ "corner" ∧ e ≠ "foul") :
    ((updateMatchMomentum momentum homeTeamID "goal" affectedTeamID minute).homeTeamMomentum =
      max (-1) (min 1 (momentum.homeTeamMomentum +
        if affectedTeamID = homeTeamID then 3/10 else -(2/10))) ∧
     (updateMatchMomentum momentum homeTeamID "goal" affectedTeamID minute).awayTeamMomentum =
      max (-1) (min 1 (momentum.awayTeamMomentum +
        if affectedTeamID = homeTeamID then -(2/10) else 3/10))) ∧
    ((updateMatchMomentum momentum homeTeamID "red_card" affectedTeamID
        minute).homeTeamMomentum =
      max (-1) (min 1 (momentum.homeTeamMomentum +
        if affectedTeamID = homeTeamID then -(4/10) else 2/10)) ∧
     (updateMatchMomentum momentum homeTeamID "red_card" affectedTeamID
        minute).awayTeamMomentum =
      max (-1) (min 1 (momentum.awayTeamMomentum +
        if affectedTeamID = homeTeamID then 2/10 else -(4/10)))) ∧
    ((updateMatchMomentum momentum homeTeamID "corner" affectedTeamID
        minute).homeTeamMomentum =
      max (-1) (min 1 (momentum.homeTeamMomentum +
        if affectedTeamID = homeTeamID then 1/10 else 0)) ∧
     (updateMatchMomentum momentum homeTeamID "corner" affectedTeamID
        minute).awayTeamMomentum =
      max (-1) (min 1 (momentum.awayTeamMomentum +
        if affectedTeamID = homeTeamID then 0 else 1/10))) ∧
    ((updateMatchMomentum momentum homeTeamID "foul" affectedTeamID minute).homeTeamMomentum =
      max (-1) (min 1 (momentum.homeTeamMomentum +
        if affectedTeamID = homeTeamID then -(1/20) else 0)) ∧
     (updateMatchMomentum momentum homeTeamID "foul" affectedTeamID minute).awayTeamMomentum =
      max (-1) (min 1 (momentum.awayTeamMomentum +
        if affectedTeamID = homeTeamID then 0 else -(1/20)))) ∧
    ((updateMatchMomentum momentum homeTeamID e affectedTeamID minute).homeTeamMomentum =
      max (-1) (min 1 momentum.homeTeamMomentum) ∧
     (updateMatchMomentum momentum homeTeamID e affectedTeamID minute).awayTeamMomentum =
      max (-1) (min 1 momentum.awayTeamMomentum)) := by
  obtain ⟨he1, he2, he3, he4⟩ := he
  have s1 : ¬(("red_card" : String) = "goal") := by decide
  have s2 : ¬(("corner" : String) = "goal") := by decide
  have s3 : ¬(("corner" : String) = "red_card") := by decide
  have s4 : ¬(("foul" : String) = "goal") := by decide
  have s5 : ¬(("foul" : String) = "red_card") := by decide
  have s6 : ¬(("foul" : String) = "corner") := by decide
  by_cases h : affectedTeamID = homeTeamID
  · refine ⟨⟨?_, ?_⟩, ⟨?_, ?_⟩, ⟨?_, ?_⟩, ⟨?_, ?_⟩, ⟨?_, ?_⟩⟩ <;>
      simp only [updateMatchMomentum, beq_iff_eq, if_pos rfl, if_pos h, if_neg s1,
        if_neg s2, if_neg s3, if_neg s4, if_neg s5, if_neg s6, if_neg he1, if_neg he2,
        if_neg he3, if_neg he4, if_true] <;>
      first
        | rfl
        | (show _ = max (-1) (min 1 _); congr 1; congr 1; ring)
  · refine ⟨⟨?_, ?_⟩, ⟨?_, ?_⟩, ⟨?_, ?_⟩, ⟨?_, ?_⟩, ⟨?_, ?_⟩⟩ <;>
      simp only [updateMatchMomentum, beq_iff_eq, if_pos rfl, if_neg h, if_neg s1,
        if_neg s2, if_neg s3, if_neg s4, if_neg s5, if_neg s6, if_neg he1, if_neg he2,
        if_neg he3, if_neg he4, if_true] <;>
      first
        | rfl
        | (show _ = max (-1) (min 1 _); congr 1; congr 1; ring)

/-- Witness for C7 (amended) at concrete momentum `initialMomentum`,
teams 1 and 2, and the non-event string "kickoff". -/
theorem c7_momentum_deltas_amended_witness :
    ((updateMatchMomentum initialMomentum 1 "goal" 2 7).homeTeamMomentum =
      max (-1) (min 1 (initialMomentum.homeTeamMomentum +
        if (2 : ℕ) = 1 then 3/10 else -(2/10))) ∧
     (updateMatchMomentum initialMomentum 1 "goal" 2 7).awayTeamMomentum =
      max (-1) (min 1 (initialMomentum.awayTeamMomentum +
        if (2 : ℕ) = 1 then -(2/10) else 3/10))) ∧
    ((updateMatchMomentum initialMomentum 1 "red_card" 2 7).homeTeamMomentum =
      max (-1) (min 1 (initialMomentum.homeTeamMomentum +
        if (2 : ℕ) = 1 then -(4/10) else 2/10)) ∧
     (updateMatchMomentum initialMomentum 1 "red_card" 2 7).awayTeamMomentum =
      max (-1) (min 1 (initialMomentum.awayTeamMomentum +
        if (2 : ℕ) = 1 then 2/10 else -(4/10)))) ∧
    ((updateMatchMomentum initialMomentum 1 "corner" 2 7).homeTeamMomentum =
      max (-1) (min 1 (initialMomentum.homeTeamMomentum +
        if (2 : ℕ) = 1 then 1/10 else 0)) ∧
     (updateMatchMomentum initialMomentum 1 "corner" 2 7).awayTeamMomentum =
      max (-1) (min 1 (initialMomentum.awayTeamMomentum +
        if (2 : ℕ) = 1 then 0 else 1/10))) ∧
    ((updateMatchMomentum initialMomentum 1 "foul" 2 7).homeTeamMomentum =
      max (-1) (min 1 (initialMomentum.homeTeamMomentum +
        if (2 : ℕ) = 1 then -(1/20) else 0)) ∧
     (updateMatchMomentum initialMomentum 1 "foul" 2 7).awayTeamMomentum =
      max (-1) (min 1 (initialMomentum.awayTeamMomentum +
        if (2 : ℕ) = 1 then 0 else -(1/20)))) ∧
    ((updateMatchMomentum initialMomentum 1 "kickoff" 2 7).homeTeamMomentum =
      max (-1) (min 1 initialMomentum.homeTeamMomentum) ∧
     (updateMatchMomentum initialMomentum 1 "kickoff" 2 7).awayTeamMomentum =
      max (-1) (min 1 initialMomentum.awayTeamMomentum)) :=
  c7_momentum_deltas_amended initialMomentum 1 2 7 "kickoff"
    ⟨by decide, by decide, by decide, by decide⟩

/-! Section: Win/draw/loss probabilities (source: `calculateTeamStrength`,
`calculateAttackStrength`, `calculateMatchProbabilities`,
`calculateNextGoalProbability`, `recalculateMatchProbabilities`) -/

/-- Source `calculateTeamStrength`: base 0.4 plus form contribution,
clamped to `[0.4, 0.7]`. -/
def calculateTeamStrength (team : TeamInfo) : ℚ :=
  let baseStrength : ℚ := 4/10
  let formStrength : ℚ := (team.formPoints : ℚ) / 15 * (3/10)
  let strength := baseStrength + formStrength
  if strength < 4/10 then 4/10
  else if 7/10 < strength then 7/10
  else strength

/-- Source `calculateAttackStrength` (textually the same formula as
`calculateTeamStrength`; both exist in the source). -/
def calculateAttackStrength (team : TeamInfo) : ℚ :=
  let baseStrength : ℚ := 4/10
  let formStrength : ℚ := (team.formPoints : ℚ) / 15 * (3/10)
  let strength := baseStrength + formStrength
  if strength < 4/10 then 4/10
  else if 7/10 < strength then 7/10
  else strength

/-- Source `calculateMatchProbabilities`: strength ratio with the 1.1
home-advantage multiplier, a draw term shrinking with the strength gap,
then normalization of the three values. Returns
(homeWin, draw, awayWin). -/
def calculateMatchProbabilities (homeTeam awayTeam : TeamInfo) : ℚ × ℚ × ℚ :=
  let homeStrength := calculateTeamStrength homeTeam * (11/10)
  let awayStrength := calculateTeamStrength awayTeam
  let totalStrength := homeStrength + awayStrength
  let homeWin := homeStrength / totalStrength
  let awayWin := awayStrength / totalStrength
  let draw := (3/10) * (1 - |homeWin - awayWin|)
  let total := homeWin + draw + awayWin
  (homeWin / total, draw / total, awayWin / total)

/-- Source type `DynamicMatchProbabilities` (the factors map and
wall-clock stamp are omitted). -/
structure DynamicMatchProbabilities where
  homeWinProbability : ℚ
  drawProbability : ℚ
  awayWinProbability : ℚ
  homeNextGoalProb : ℚ
  awayNextGoalProb : ℚ
  nextGoalProbability : ℚ
deriving DecidableEq, Repr

/-- Source `calculateNextGoalProbability`; the red-card count stands for
`getRedCardCount` evaluated on the availability map. -/
def calculateNextGoalProbability (team : TeamInfo) (momentum : Option MatchMomentum)
    (isHome : Bool) (redCardCount : ℕ) : ℚ :=
  let baseProb : ℚ := 2/100
  let attackStrength := calculateAttackStrength team
  let baseProb := baseProb * (attackStrength * 2)
  let baseProb :=
    match momentum with
    | some mo =>
      baseProb * (1 + (if isHome then mo.homeTeamMomentum else mo.awayTeamMomentum) * (5/10))
    | none => baseProb
  let playerCount : ℤ := 11 - (redCardCount : ℤ)
  let baseProb := if playerCount < 11 then baseProb * ((playerCount : ℚ) / 11) else baseProb
  max (1/1000) (min (1/10) baseProb)

/-- Source `recalculateMatchProbabilities`: pre-match baseline perturbed
by score difference, red-card player difference and momentum difference,
dampened in the closing minutes, clamped to `[0.05, 0.9]`, then
renormalized; next-goal probabilities are bounded separately. -/
def recalculateMatchProbabilities (homeTeam awayTeam : TeamInfo) (homeScore awayScore : ℕ)
    (minute : ℤ) (homeRedCount awayRedCount : ℕ) (momentum : Option MatchMomentum) :
    DynamicMatchProbabilities :=
  let base := calculateMatchProbabilities homeTeam awayTeam
  let baseHomeWin := base.1
  let baseAwayWin := base.2.2
  let scoreDiff : ℤ := (homeScore : ℤ) - (awayScore : ℤ)
  let scoreAdjustment : ℚ := (scoreDiff : ℚ) * (1/10)
  let homePlayerCount : ℤ := 11 - (homeRedCount : ℤ)
  let awayPlayerCount : ℤ := 11 - (awayRedCount : ℤ)
  let playerDiff : ℚ := ((homePlayerCount - awayPlayerCount : ℤ) : ℚ) * (15/100)
  let momentumAdjustment : ℚ :=
    match momentum with
    | some mo => (mo.homeTeamMomentum - mo.awayTeamMomentum) * (2/10)
    | none => 0
  let timeRemaining : ℤ := 90 - minute
  let timeMultiplier : ℚ := if timeRemaining < 15 then 1/2 + (timeRemaining : ℚ) / 30 else 1
  let totalAdjustment := (scoreAdjustment + playerDiff + momentumAdjustment) * timeMultiplier
  let homeWinProbability := max (5/100) (min (9/10) (baseHomeWin + totalAdjustment))
  let awayWinProbability := max (5/100) (min (9/10) (baseAwayWin - totalAdjustment))
  let drawProbability := max (5/100) (1 - homeWinProbability - awayWinProbability)
  let total := homeWinProbability + drawProbability + awayWinProbability
  let homeNextGoalProb := calculateNextGoalProbability homeTeam momentum true homeRedCount
  let awayNextGoalProb := calculateNextGoalProbability awayTeam momentum false awayRedCount
  { homeWinProbability := homeWinProbability / total
    drawProbability := drawProbability / total
    awayWinProbability := awayWinProbability / total
    homeNextGoalProb := homeNextGoalProb
    awayNextGoalProb := awayNextGoalProb
    nextGoalProbability := homeNextGoalProb + awayNextGoalProb }

theorem calculateTeamStrength_bounds (team : TeamInfo) :
    4/10 ≤ calculateTeamStrength team ∧ calculateTeamStrength team ≤ 7/10 := by
  simp only [calculateTeamStrength]
  split_ifs with h1 h2 <;> constructor <;> linarith

theorem normalized_triple_spec (H D A : ℚ) (hH : 0 < H) (hD : 0 < D) (hA : 0 < A) :
    (0 ≤ H / (H + D + A) ∧ H / (H + D + A) ≤ 1) ∧
    (0 ≤ D / (H + D + A) ∧ D / (H + D + A) ≤ 1) ∧
    (0 ≤ A / (H + D + A) ∧ A / (H + D + A) ≤ 1) ∧
    H / (H + D + A) + D / (H + D + A) + A / (H + D + A) = 1 := by
  have htot : 0 < H + D + A := by linarith
  refine ⟨⟨div_nonneg hH.le htot.le, ?_⟩, ⟨div_nonneg hD.le htot.le, ?_⟩,
    ⟨div_nonneg hA.le htot.le, ?_⟩, ?_⟩
  · rw [div_le_one htot]; linarith
  · rw [div_le_one htot]; linarith
  · rw [div_le_one htot]; linarith
  · field_simp

theorem calculateMatchProbabilities_spec (homeTeam awayTeam : TeamInfo) :
    (0 ≤ (calculateMatchProbabilities homeTeam awayTeam).1 ∧
      (calculateMatchProbabilities homeTeam awayTeam).1 ≤ 1) ∧
    (0 ≤ (calculateMatchProbabilities homeTeam awayTeam).2.1 ∧
      (calculateMatchProbabilities homeTeam awayTeam).2.1 ≤ 1) ∧
    (0 ≤ (calculateMatchProbabilities homeTeam awayTeam).2.2 ∧
      (calculateMatchProbabilities homeTeam awayTeam).2.2 ≤ 1) ∧
    (calculateMatchProbabilities homeTeam awayTeam).1 +
      (calculateMatchProbabilities homeTeam awayTeam).2.1 +
      (calculateMatchProbabilities homeTeam awayTeam).2.2 = 1 := by
  obtain ⟨hb1, hb2⟩ := calculateTeamStrength_bounds homeTeam
  obtain ⟨hb3, hb4⟩ := calculateTeamStrength_bounds awayTeam
  have hhs : 0 < calculateTeamStrength homeTeam * (11/10) := by nlinarith
  have has : 0 < calculateTeamStrength awayTeam := by linarith
  have hts : 0 < calculateTeamStrength homeTeam * (11/10) + calculateTeamStrength awayTeam := by
    linarith
  have hw0 : 0 < calculateTeamStrength homeTeam * (11/10) /
      (calculateTeamStrength homeTeam * (11/10) + calculateTeamStrength awayTeam) :=
    div_pos hhs hts
  have hw1 : calculateTeamStrength homeTeam * (11/10) /
      (calculateTeamStrength homeTeam * (11/10) + calculateTeamStrength awayTeam) < 1 := by
    rw [div_lt_one hts]; linarith
  have aw0 : 0 < calculateTeamStrength awayTeam /
      (calculateTeamStrength homeTeam * (11/10) + calculateTeamStrength awayTeam) :=
    div_pos has hts
  have aw1 : calculateTeamStrength awayTeam /
      (calculateTeamStrength homeTeam * (11/10) + calculateTeamStrength awayTeam) < 1 := by
    rw [div_lt_one hts]; linarith
  have habs : |calculateTeamStrength homeTeam * (11/10) /
      (calculateTeamStrength homeTeam * (11/10) + calculateTeamStrength awayTeam) -
      calculateTeamStrength awayTeam /
      (calculateTeamStrength homeTeam * (11/10) + calculateTeamStrength awayTeam)| < 1 := by
    rw [abs_lt]
    constructor <;> linarith
  have hdraw : 0 < (3/10 : ℚ) *
      (1 - |calculateTeamStrength homeTeam * (11/10) /
        (calculateTeamStrength homeTeam * (11/10) + calculateTeamStrength awayTeam) -
        calculateTeamStrength awayTeam /
        (calculateTeamStrength homeTeam * (11/10) + calculateTeamStrength awayTeam)|) := by
    nlinarith
  simp only [calculateMatchProbabilities]
  exact normalized_triple_spec _ _ _ hw0 hdraw aw0

/-- C6. After every dynamic probability recalculation the three outcome
probabilities lie in `[0, 1]` and sum exactly to 1 (hence well within the
1e-6 tolerance of the claim), and the same holds for the pre-match
baseline computed at match creation. -/
theorem c6_probabilities_in_range_and_normalized :
    (∀ (homeTeam awayTeam : TeamInfo) (homeScore awayScore : ℕ) (minute : ℤ)
        (homeRedCount awayRedCount : ℕ) (momentum : Option MatchMomentum),
      (0 ≤ (recalculateMatchProbabilities homeTeam awayTeam homeScore awayScore minute
          homeRedCount awayRedCount momentum).homeWinProbability ∧
        (recalculateMatchProbabilities homeTeam awayTeam homeScore awayScore minute
          homeRedCount awayRedCount momentum).homeWinProbability ≤ 1) ∧
      (0 ≤ (recalculateMatchProbabilities homeTeam awayTeam homeScore awayScore minute
          homeRedCount awayRedCount momentum).drawProbability ∧
        (recalculateMatchProbabilities homeTeam awayTeam homeScore awayScore minute
          homeRedCount awayRedCount momentum).drawProbability ≤ 1) ∧
      (0 ≤ (recalculateMatchProbabilities homeTeam awayTeam homeScore awayScore minute
          homeRedCount awayRedCount momentum).awayWinProbability ∧
        (recalculateMatchProbabilities homeTeam awayTeam homeScore awayScore minute
          homeRedCount awayRedCount momentum).awayWinProbability ≤ 1) ∧
      (recalculateMatchProbabilities homeTeam awayTeam homeScore awayScore minute
          homeRedCount awayRedCount momentum).homeWinProbability +
        (recalculateMatchProbabilities homeTeam awayTeam homeScore awayScore minute
          homeRedCount awayRedCount momentum).drawProbability +
        (recalculateMatchProbabilities homeTeam awayTeam homeScore awayScore minute
          homeRedCount awayRedCount momentum).awayWinProbability = 1) ∧
    (∀ homeTeam awayTeam : TeamInfo,
      (0 ≤ (calculateMatchProbabilities homeTeam awayTeam).1 ∧
        (calculateMatchProbabilities homeTeam awayTeam).1 ≤ 1) ∧
      (0 ≤ (calculateMatchProbabilities homeTeam awayTeam).2.1 ∧
        (calculateMatchProbabilities homeTeam awayTeam).2.1 ≤ 1) ∧
      (0 ≤ (calculateMatchProbabilities homeTeam awayTeam).2.2 ∧
        (calculateMatchProbabilities homeTeam awayTeam).2.2 ≤ 1) ∧
      (calculateMatchProbabilities homeTeam awayTeam).1 +
        (calculateMatchProbabilities homeTeam awayTeam).2.1 +
        (calculateMatchProbabilities homeTeam awayTeam).2.2 = 1) := by
  constructor
  · intro homeTeam awayTeam homeScore awayScore minute homeRedCount awayRedCount momentum
    have hmax : ∀ y : ℚ, 0 < max (5/100) y :=
      fun y => lt_of_lt_of_le (by norm_num) (le_max_left _ _)
    simp only [recalculateMatchProbabilities]
    exact normalized_triple_spec _ _ _ (hmax _) (hmax _) (hmax _)
  · intro homeTeam awayTeam
    exact calculateMatchProbabilities_spec homeTeam awayTeam

/-! Section: Goal events (source: `handleGoalEvent`, `findNearestAttackingPlayer`)

`shotSucceeds` abstracts the draw `rand.Float64() < getGoalProbability(...)`
(whose value mixes a square-root distance into a probability, so only the
comparison outcome enters the control flow). The source compares
Euclidean distances `d < minDist` and `d < 15`; the model compares their
squares, which is equivalent for nonnegative quantities, and replaces the
`+Inf` initial bound by a sentinel above every admissible squared
distance (admissible values are capped at `15² = 225`). -/

/-- Source type `BallPosition` (coordinates, possession bookkeeping). -/
structure BallPosition where
  x : ℚ
  y : ℚ
  possessorID : ℕ
  lastTouchID : ℕ
  speed : ℚ
deriving DecidableEq, Repr

/-- Lookup in the global `players` map. -/
def findPlayerByID (players : List Player) (playerID : ℕ) : Option Player :=
  players.find? (fun p => p.id == playerID)

/-- One fold step of the source loop over `playerLocations[matchID]`:
keep the nearest attacking-role player of the attacking team within
radius 15 of the ball. -/
def nearestStep (players : List Player) (attackingTeamID : ℕ) (ball : BallPosition)
    (acc : Option Player × ℚ) (loc : ℕ × ℚ × ℚ) : Option Player × ℚ :=
  match findPlayerByID players loc.1 with
  | some player =>
    if player.teamID == attackingTeamID &&
       (player.position == PosST || player.position == PosCAM ||
        player.position == PosLW || player.position == PosRW) then
      if (loc.2.1 - ball.x)^2 + (loc.2.2 - ball.y)^2 < acc.2 ∧
         (loc.2.1 - ball.x)^2 + (loc.2.2 - ball.y)^2 < 225 then
        (some player, (loc.2.1 - ball.x)^2 + (loc.2.2 - ball.y)^2)
      else acc
    else acc
  | none => acc

/-- Source `findNearestAttackingPlayer`: the team attacking is read off
the ball half, then the location map is scanned for the nearest
attacker. -/
def findNearestAttackingPlayer (players : List Player) (homeTeamID awayTeamID : ℕ)
    (ball : BallPosition) (locations : List (ℕ × ℚ × ℚ)) : Option Player :=
  let attackingTeamID := if 50 < ball.x then homeTeamID else awayTeamID
  (locations.foldl (nearestStep players attackingTeamID ball)
    ((none : Option Player), (1000000000 : ℚ))).1

/-- Possessor-based scorer candidate of source `handleGoalEvent`: the
possessor if in an attacking third, not a goalkeeper and the probability
draw succeeds. -/
def possessorScorer (players : List Player) (ball : BallPosition) (shotSucceeds : Bool) :
    Option Player :=
  if 0 < ball.possessorID then
    match findPlayerByID players ball.possessorID with
    | some player =>
      if 70 < ball.x ∨ ball.x < 30 then
        if player.position ≠ PosGK ∧ shotSucceeds = true then some player else none
      else none
    | none => none
  else none

/-- Scorer determination of source `handleGoalEvent`: the possessor
candidate, otherwise the nearest-attacker fallback. -/
def determineGoalScorer (m : Match) (players : List Player) (ball : BallPosition)
    (locations : List (ℕ × ℚ × ℚ)) (shotSucceeds : Bool) : Option Player :=
  match possessorScorer players ball shotSucceeds with
  | some scorer => some scorer
  | none => findNearestAttackingPlayer players m.homeTeamID m.awayTeamID ball locations

/-- The per-player mutation of the scorer block of source
`handleGoalEvent`. -/
def scorerBonus (p : Player) : Player :=
  { p with goals := p.goals + 1
           seasonGoals := p.seasonGoals + 1
           currentRating := p.currentRating + 2 }

/-- The per-player mutation of the assister block of source
`handleGoalEvent`. -/
def assistBonus (p : Player) : Player :=
  { p with assists := p.assists + 1
           seasonAssists := p.seasonAssists + 1
           currentRating := p.currentRating + 1 }

/-- Scorer bookkeeping of source `handleGoalEvent`: goal and season-goal
counters and the rating bonus of the scorer. -/
def creditScorer (players : List Player) (scorer : Player) : List Player :=
  updatePlayerById players scorer.id scorerBonus

/-- Assister bookkeeping of source `handleGoalEvent`: the last
ball-toucher gets the assist only if an entry exists, is on the scorer's
team and is not the scorer. -/
def creditAssister (players : List Player) (ball : BallPosition) (scorer : Player) :
    List Player :=
  if ball.lastTouchID ≠ 0 ∧ ball.lastTouchID ≠ scorer.id then
    match findPlayerByID players ball.lastTouchID with
    | some assister =>
      if assister.teamID == scorer.teamID then
        updatePlayerById players assister.id assistBonus
      else players
    | none => players
  else players

/-- Source `handleGoalEvent` (score and scorer/assister bookkeeping; the
momentum update, probability recalculation, kickoff ball reset and
commentary it also triggers are modelled in their own sections and touch
neither scores nor player statistics). -/
def handleGoalEvent (m : Match) (players : List Player) (ball : BallPosition)
    (locations : List (ℕ × ℚ × ℚ)) (shotSucceeds : Bool) : Match × List Player :=
  match determineGoalScorer m players ball locations shotSucceeds with
  | none => (m, players)
  | some scorer =>
    let m :=
      if scorer.teamID == m.homeTeamID then { m with homeScore := m.homeScore + 1 }
      else { m with awayScore := m.awayScore + 1 }
    let players := creditScorer players scorer
    let players := creditAssister players ball scorer
    (m, players)

/-- The goals credited to a player id in a player list. -/
def goalsOf (players : List Player) (playerID : ℕ) : Option ℕ :=
  (findPlayerByID players playerID).map (fun p => p.goals)

/-- The assists credited to a player id in a player list. -/
def assistsOf (players : List Player) (playerID : ℕ) : Option ℕ :=
  (findPlayerByID players playerID).map (fun p => p.assists)

theorem updatePlayerById_map_id (players : List Player) (playerID : ℕ) (f : Player → Player)
    (hf : ∀ p, (f p).id = p.id) :
    (updatePlayerById players playerID f).map (fun p => p.id) =
      players.map (fun p => p.id) := by
  unfold updatePlayerById
  rw [List.map_map]
  apply List.map_congr_left
  intro p _
  by_cases h : p.id = playerID <;> simp [h, hf]

theorem findPlayerByID_updatePlayerById (players : List Player) (playerID q : ℕ)
    (f : Player → Player) (hf : ∀ p, (f p).id = p.id) :
    findPlayerByID (updatePlayerById players playerID f) q =
      (findPlayerByID players q).map (fun p => if p.id == playerID then f p else p) := by
  unfold findPlayerByID updatePlayerById
  rw [List.find?_map]
  have hpred : ((fun p : Player => p.id == q) ∘ fun p => if p.id == playerID then f p else p) =
      (fun p : Player => p.id == q) := by
    funext p
    by_cases h : p.id = playerID <;> simp [h, hf, Function.comp]
  rw [hpred]

theorem findPlayerByID_eq_self {players : List Player} {p : Player}
    (hids : (players.map (fun q => q.id)).Nodup) (hp : p ∈ players) :
    findPlayerByID players p.id = some p := by
  induction players with
  | nil => cases hp
  | cons a rest ih =>
    rcases List.mem_cons.mp hp with h | h
    · subst h
      simp [findPlayerByID, List.find?_cons]
    · have hne : ¬(a.id == p.id) = true := by
        simp only [List.map_cons, List.nodup_cons] at hids
        intro hcontra
        exact hids.1 (by
          rw [beq_iff_eq] at hcontra
          rw [hcontra]
          exact List.mem_map_of_mem _ h)
      have := ih (by simp only [List.map_cons, List.nodup_cons] at hids; exact hids.2) h
      simpa [findPlayerByID, List.find?_cons, hne] using this

theorem nearestStep_mem {players : List Player} {attackingTeamID : ℕ} {ball : BallPosition} :
    ∀ (locations : List (ℕ × ℚ × ℚ)) (acc : Option Player × ℚ),
      (∀ q, acc.1 = some q → q ∈ players) →
      ∀ p, (locations.foldl (nearestStep players attackingTeamID ball) acc).1 = some p →
        p ∈ players := by
  intro locations
  induction locations with
  | nil => intro acc hacc p hp; exact hacc p hp
  | cons loc rest ih =>
    intro acc hacc p hp
    refine ih _ ?_ p hp
    intro q hq
    unfold nearestStep at hq
    rcases hfind : findPlayerByID players loc.1 with _ | player
    · rw [hfind] at hq
      exact hacc q hq
    · rw [hfind] at hq
      dsimp only at hq
      have hmem : player ∈ players := List.mem_of_find?_eq_some hfind
      by_cases hA : (player.teamID == attackingTeamID &&
          (player.position == PosST || player.position == PosCAM ||
           player.position == PosLW || player.position == PosRW)) = true
      · rw [if_pos hA] at hq
        by_cases hB : (loc.2.1 - ball.x)^2 + (loc.2.2 - ball.y)^2 < acc.2 ∧
            (loc.2.1 - ball.x)^2 + (loc.2.2 - ball.y)^2 < 225
        · rw [if_pos hB] at hq
          have : player = q := by simpa using hq
          subst this
          exact hmem
        · rw [if_neg hB] at hq
          exact hacc q hq
      · rw [if_neg hA] at hq
        exact hacc q hq

theorem findNearestAttackingPlayer_mem {players : List Player} {homeTeamID awayTeamID : ℕ}
    {ball : BallPosition} {locations : List (ℕ × ℚ × ℚ)} {p : Player}
    (h : findNearestAttackingPlayer players homeTeamID awayTeamID ball locations = some p) :
    p ∈ players := by
  unfold findNearestAttackingPlayer at h
  exact nearestStep_mem locations _ (fun q hq => by cases hq) p h

theorem possessorScorer_mem {players : List Player} {ball : BallPosition}
    {shotSucceeds : Bool} {scorer : Player}
    (h : possessorScorer players ball shotSucceeds = some scorer) : scorer ∈ players := by
  unfold possessorScorer at h
  by_cases hposs : 0 < ball.possessorID
  · rw [if_pos hposs] at h
    rcases hfind : findPlayerByID players ball.possessorID with _ | player
    · rw [hfind] at h
      cases h
    · rw [hfind] at h
      dsimp only at h
      have hmem : player ∈ players := List.mem_of_find?_eq_some hfind
      by_cases hthird : 70 < ball.x ∨ ball.x < 30
      · rw [if_pos hthird] at h
        by_cases hgk : player.position ≠ PosGK ∧ shotSucceeds = true
        · rw [if_pos hgk] at h
          cases h
          exact hmem
        · rw [if_neg hgk] at h
          cases h
      · rw [if_neg hthird] at h
        cases h
  · rw [if_neg hposs] at h
    cases h

theorem determineGoalScorer_mem {m : Match} {players : List Player} {ball : BallPosition}
    {locations : List (ℕ × ℚ × ℚ)} {shotSucceeds : Bool} {scorer : Player}
    (h : determineGoalScorer m players ball locations shotSucceeds = some scorer) :
    scorer ∈ players := by
  unfold determineGoalScorer at h
  rcases hps : possessorScorer players ball shotSucceeds with _ | s
  · rw [hps] at h
    exact findNearestAttackingPlayer_mem h
  · rw [hps] at h
    cases h
    exact possessorScorer_mem hps

theorem eq_of_mem_of_id_eq {players : List Player}
    (hids : (players.map (fun r => r.id)).Nodup) {p q : Player}
    (hp : p ∈ players) (hq : q ∈ players) (h : p.id = q.id) : p = q := by
  have h1 := findPlayerByID_eq_self hids hp
  have h2 := findPlayerByID_eq_self hids hq
  rw [h] at h1
  rw [h1] at h2
  exact Option.some.inj h2

theorem creditScorer_eq_map (players : List Player) (scorer : Player) :
    creditScorer players scorer =
      players.map (fun r => if r.id == scorer.id then scorerBonus r else r) := rfl

theorem creditScorer_map_id (players : List Player) (scorer : Player) :
    ((creditScorer players scorer).map (fun r => r.id)) = players.map (fun r => r.id) :=
  updatePlayerById_map_id players scorer.id _ (fun _ => rfl)

theorem goalsOf_creditScorer (players : List Player) (scorer : Player)
    (hids : (players.map (fun r => r.id)).Nodup) {p : Player} (hp : p ∈ players) :
    goalsOf (creditScorer players scorer) p.id =
      some (if p.id = scorer.id then p.goals + 1 else p.goals) := by
  unfold goalsOf creditScorer
  rw [findPlayerByID_updatePlayerById players scorer.id p.id scorerBonus (fun _ => rfl),
    findPlayerByID_eq_self hids hp]
  by_cases h : p.id = scorer.id <;> simp [h, scorerBonus]

theorem goalsOf_creditAssister (players : List Player) (ball : BallPosition)
    (scorer : Player) (q : ℕ) :
    goalsOf (creditAssister players ball scorer) q = goalsOf players q := by
  unfold creditAssister
  by_cases hcond : ball.lastTouchID ≠ 0 ∧ ball.lastTouchID ≠ scorer.id
  · rw [if_pos hcond]
    rcases hfind : findPlayerByID players ball.lastTouchID with _ | assister
    · dsimp only
    · dsimp only
      by_cases hteam : (assister.teamID == scorer.teamID) = true
      · rw [if_pos hteam]
        unfold goalsOf
        rw [findPlayerByID_updatePlayerById players assister.id q assistBonus (fun _ => rfl)]
        rcases hfq : findPlayerByID players q with _ | r
        · rfl
        · by_cases hr : r.id = assister.id <;> simp [hr, assistBonus]
      · rw [if_neg hteam]
  · rw [if_neg hcond]

theorem assistsOf_creditAssister (players : List Player) (ball : BallPosition)
    (scorer : Player) (hids : (players.map (fun r => r.id)).Nodup) {p : Player}
    (hp : p ∈ players) :
    assistsOf (creditAssister players ball scorer) p.id =
      some (if p.id = ball.lastTouchID ∧ ball.lastTouchID ≠ 0 ∧
               ball.lastTouchID ≠ scorer.id ∧ p.teamID = scorer.teamID
            then p.assists + 1 else p.assists) := by
  unfold creditAssister
  by_cases hcond : ball.lastTouchID ≠ 0 ∧ ball.lastTouchID ≠ scorer.id
  · rw [if_pos hcond]
    rcases hfind : findPlayerByID players ball.lastTouchID with _ | assister
    · have hne : ¬p.id = ball.lastTouchID := by
        intro hpe
        have hself := findPlayerByID_eq_self hids hp
        rw [hpe, hfind] at hself
        cases hself
      dsimp only
      unfold assistsOf
      rw [findPlayerByID_eq_self hids hp]
      simp [hne]
    · dsimp only
      have hassmem : assister ∈ players := List.mem_of_find?_eq_some hfind
      have hassid : assister.id = ball.lastTouchID := by
        have := List.find?_some hfind
        simpa using this
      by_cases hteam : (assister.teamID == scorer.teamID) = true
      · rw [if_pos hteam]
        rw [beq_iff_eq] at hteam
        unfold assistsOf
        rw [findPlayerByID_updatePlayerById players assister.id p.id assistBonus (fun _ => rfl),
          findPlayerByID_eq_self hids hp]
        by_cases hpid : p.id = assister.id
        · have hpeq : p = assister := eq_of_mem_of_id_eq hids hp hassmem hpid
          have hc : p.id = ball.lastTouchID ∧ ball.lastTouchID ≠ 0 ∧
              ball.lastTouchID ≠ scorer.id ∧ p.teamID = scorer.teamID :=
            ⟨hpid.trans hassid, hcond.1, hcond.2, by rw [hpeq]; exact hteam⟩
          simp [hpid, hc, assistBonus, hassid]
        · have hc : ¬(p.id = ball.lastTouchID ∧ ball.lastTouchID ≠ 0 ∧
              ball.lastTouchID ≠ scorer.id ∧ p.teamID = scorer.teamID) := by
            rintro ⟨h1, -, -, -⟩
            exact hpid (h1.trans hassid.symm)
          simp [hpid, hc]
      · rw [if_neg hteam]
        unfold assistsOf
        rw [findPlayerByID_eq_self hids hp]
        have hc : ¬(p.id = ball.lastTouchID ∧ ball.lastTouchID ≠ 0 ∧
            ball.lastTouchID ≠ scorer.id ∧ p.teamID = scorer.teamID) := by
          rintro ⟨h1, -, -, h4⟩
          apply hteam
          rw [beq_iff_eq]
          have hpeq : p = assister := eq_of_mem_of_id_eq hids hp hassmem (h1.trans hassid.symm)
          rw [← hpeq]
          exact h4
        simp [hc]
  · rw [if_neg hcond]
    unfold assistsOf
    rw [findPlayerByID_eq_self hids hp]
    have hc : ¬(p.id = ball.lastTouchID ∧ ball.lastTouchID ≠ 0 ∧
        ball.lastTouchID ≠ scorer.id ∧ p.teamID = scorer.teamID) := by
      rintro ⟨-, h2, h3, -⟩
      exact hcond ⟨h2, h3⟩
    simp [hc]

/-- C9. A goal event with no eligible scorer changes nothing; a goal
event with scorer `s` increments exactly the score of the team `s`
belongs to by exactly 1, credits exactly one scorer (goal counters of
every other player unchanged), and credits at most one assister — the
last ball-toucher, and only when that entry exists, differs from the
scorer and is on the scorer's team. -/
theorem c9_goal_event_effects (m : Match) (players : List Player) (ball : BallPosition)
    (locations : List (ℕ × ℚ × ℚ)) (shotSucceeds : Bool)
    (hids : (players.map (fun r => r.id)).Nodup)
    (hteams : ∀ p ∈ players, p.teamID = m.homeTeamID ∨ p.teamID = m.awayTeamID) :
    (determineGoalScorer m players ball locations shotSucceeds = none →
      handleGoalEvent m players ball locations shotSucceeds = (m, players)) ∧
    (∀ scorer, determineGoalScorer m players ball locations shotSucceeds = some scorer →
      ((scorer.teamID = m.homeTeamID ∧
          (handleGoalEvent m players ball locations shotSucceeds).1.homeScore =
            m.homeScore + 1 ∧
          (handleGoalEvent m players ball locations shotSucceeds).1.awayScore =
            m.awayScore) ∨
       (scorer.teamID = m.awayTeamID ∧ scorer.teamID ≠ m.homeTeamID ∧
          (handleGoalEvent m players ball locations shotSucceeds).1.awayScore =
            m.awayScore + 1 ∧
          (handleGoalEvent m players ball locations shotSucceeds).1.homeScore =
            m.homeScore)) ∧
      (∀ p ∈ players,
        goalsOf (handleGoalEvent m players ball locations shotSucceeds).2 p.id =
          some (if p.id = scorer.id then p.goals + 1 else p.goals)) ∧
      (∀ p ∈ players,
        assistsOf (handleGoalEvent m players ball locations shotSucceeds).2 p.id =
          some (if p.id = ball.lastTouchID ∧ ball.lastTouchID ≠ 0 ∧
                   ball.lastTouchID ≠ scorer.id ∧ p.teamID = scorer.teamID
                then p.assists + 1 else p.assists))) := by
  constructor
  · intro hnone
    simp only [handleGoalEvent, hnone]
  · intro scorer hsc
    have hmem := determineGoalScorer_mem hsc
    have hresult : handleGoalEvent m players ball locations shotSucceeds =
        (if scorer.teamID == m.homeTeamID then { m with homeScore := m.homeScore + 1 }
         else { m with awayScore := m.awayScore + 1 },
         creditAssister (creditScorer players scorer) ball scorer) := by
      simp only [handleGoalEvent, hsc]
    have hids1 : ((creditScorer players scorer).map (fun r => r.id)).Nodup := by
      rw [creditScorer_map_id]
      exact hids
    refine ⟨?_, ?_, ?_⟩
    · by_cases hb : scorer.teamID = m.homeTeamID
      · left
        refine ⟨hb, ?_, ?_⟩ <;> rw [hresult] <;> simp [hb]
      · right
        have hb2 : scorer.teamID = m.awayTeamID := (hteams scorer hmem).resolve_left hb
        have hbeq : (scorer.teamID == m.homeTeamID) = false := by simpa using hb
        refine ⟨hb2, hb, ?_, ?_⟩ <;> rw [hresult] <;> simp [hbeq]
    · intro p hp
      rw [hresult]
      show goalsOf (creditAssister (creditScorer players scorer) ball scorer) p.id = _
      rw [goalsOf_creditAssister]
      exact goalsOf_creditScorer players scorer hids hp
    · intro p hp
      rw [hresult]
      show assistsOf (creditAssister (creditScorer players scorer) ball scorer) p.id = _
      have hgp : (if p.id == scorer.id then scorerBonus p else p) ∈
          creditScorer players scorer := by
        rw [creditScorer_eq_map]
        exact List.mem_map_of_mem _ hp
      have h1 := assistsOf_creditAssister (creditScorer players scorer) ball scorer hids1 hgp
      by_cases hps : p.id = scorer.id <;> simpa [hps, scorerBonus] using h1

/-- Concrete data for the C9 witness: home striker 1 in possession deep
in the attacking third, last touched by teammate 2. -/
def c9Ball : BallPosition :=
  { x := 85, y := 32, possessorID := 1, lastTouchID := 2, speed := 3 }

/-- The players of the C9 witness. -/
def c9Players : List Player :=
  [{ c5Player 1 10 with position := PosST }, { c5Player 2 10 with position := PosCAM },
   { c5Player 3 20 with position := PosST }, { c5Player 4 20 with position := PosGK }]

/-- The match of the C9 witness (home team 10, away team 20). -/
def c9Match : Match :=
  { c3Match with homeTeamID := 10, awayTeamID := 20 }

/-- Witness for C9: on the concrete data the possessor (player 1)
scores, the home score increments, and player 2 takes the assist. -/
theorem c9_goal_event_effects_witness :
    (determineGoalScorer c9Match c9Players c9Ball [] true = none →
      handleGoalEvent c9Match c9Players c9Ball [] true = (c9Match, c9Players)) ∧
    (∀ scorer, determineGoalScorer c9Match c9Players c9Ball [] true = some scorer →
      ((scorer.teamID = c9Match.homeTeamID ∧
          (handleGoalEvent c9Match c9Players c9Ball [] true).1.homeScore =
            c9Match.homeScore + 1 ∧
          (handleGoalEvent c9Match c9Players c9Ball [] true).1.awayScore =
            c9Match.awayScore) ∨
       (scorer.teamID = c9Match.awayTeamID ∧ scorer.teamID ≠ c9Match.homeTeamID ∧
          (handleGoalEvent c9Match c9Players c9Ball [] true).1.awayScore =
            c9Match.awayScore + 1 ∧
          (handleGoalEvent c9Match c9Players c9Ball [] true).1.homeScore =
            c9Match.homeScore)) ∧
      (∀ p ∈ c9Players,
        goalsOf (handleGoalEvent c9Match c9Players c9Ball [] true).2 p.id =
          some (if p.id = scorer.id then p.goals + 1 else p.goals)) ∧
      (∀ p ∈ c9Players,
        assistsOf (handleGoalEvent c9Match c9Players c9Ball [] true).2 p.id =
          some (if p.id = c9Ball.lastTouchID ∧ c9Ball.lastTouchID ≠ 0 ∧
                   c9Ball.lastTouchID ≠ scorer.id ∧ p.teamID = scorer.teamID
                then p.assists + 1 else p.assists))) :=
  c9_goal_event_effects c9Match c9Players c9Ball [] true (by decide)
    (by intro p hp; fin_cases hp <;> simp [c9Match, c3Match, c5Player])

/-! Section: League table update and sort (source: `updateTeamStats`,
`sortLeagueTable`)

The source sort is an in-place bubble sort: outer iteration `i` from `0`
to `n - 2`, inner adjacent comparisons `j` and `j + 1` for
`j < n - i - 1`. `bubblePass l k` performs `k` adjacent
compare-and-swap steps from the head of `l`, so the source's pass
sequence is `bubbleSortPasses l (n - 1)` (passes of `n - 1`, `n - 2`,
..., `1` comparisons); the trailing position loop is `setPositionsFrom`. -/

/-- The comparison of source `sortLeagueTable`: swap when `a` has fewer
points than `b`, or equal points and a worse goal difference. -/
def ltRow (a b : LeagueTable) : Prop :=
  a.points < b.points ∨ (a.points = b.points ∧ a.goalDiff < b.goalDiff)

instance (a b : LeagueTable) : Decidable (ltRow a b) := by
  unfold ltRow
  infer_instance

/-- One bubble pass of `k` adjacent comparisons from the head. -/
def bubblePass : List LeagueTable → ℕ → List LeagueTable
  | a :: b :: rest, k + 1 =>
    if ltRow a b then b :: bubblePass (a :: rest) k else a :: bubblePass (b :: rest) k
  | table, _ => table

/-- The source's outer loop: passes of `k`, `k - 1`, ..., `1` comparisons. -/
def bubbleSortPasses : List LeagueTable → ℕ → List LeagueTable
  | table, 0 => table
  | table, k + 1 => bubbleSortPasses (bubblePass table (k + 1)) k

/-- The source's final loop `table[i].Position = i + 1`. -/
def setPositionsFrom : ℕ → List LeagueTable → List LeagueTable
  | _, [] => []
  | i, row :: rest => { row with position := i + 1 } :: setPositionsFrom (i + 1) rest

/-- Source `sortLeagueTable`. -/
def sortLeagueTable (table : List LeagueTable) : List LeagueTable :=
  setPositionsFrom 0 (bubbleSortPasses table (table.length - 1))

/-- The standings-row update of source `updateTeamStats` (first matching
entry, then `break`); `goalsFor`/`goalsAgainst` carry the match scores
from the caller's home/away split. -/
def updateTableEntry (table : List LeagueTable) (teamID : ℕ) (points : ℤ)
    (wins draws losses goalsFor goalsAgainst : ℕ) : List LeagueTable :=
  match table with
  | [] => []
  | entry :: rest =>
    if entry.teamID == teamID then
      { entry with
        points := entry.points + points
        won := entry.won + wins
        drawn := entry.drawn + draws
        lost := entry.lost + losses
        played := (entry.won + wins) + (entry.drawn + draws) + (entry.lost + losses)
        goalsFor := entry.goalsFor + goalsFor
        goalsAgainst := entry.goalsAgainst + goalsAgainst
        goalDiff := ((entry.goalsFor + goalsFor : ℕ) : ℤ) -
          ((entry.goalsAgainst + goalsAgainst : ℕ) : ℤ) } :: rest
    else entry :: updateTableEntry rest teamID points wins draws losses goalsFor goalsAgainst

/-- Source `updateTeamStats`, restricted to one league table: update the
team's row, then re-sort (the source also updates the team's form list,
which lives on `TeamInfo` and not on the table rows). -/
def updateTeamStats (table : List LeagueTable) (teamID : ℕ) (points : ℤ)
    (wins draws losses goalsFor goalsAgainst : ℕ) : List LeagueTable :=
  sortLeagueTable (updateTableEntry table teamID points wins draws losses goalsFor goalsAgainst)

theorem ltRow_irrefl (a : LeagueTable) : ¬ ltRow a a := by
  unfold ltRow
  omega

theorem not_ltRow_of_ltRow_left {a b m : LeagueTable} (hab : ltRow a b)
    (ham : ¬ ltRow a m) : ¬ ltRow b m := by
  unfold ltRow at *
  omega

theorem not_ltRow_trans {a b m : LeagueTable} (hab : ¬ ltRow a b) (hbm : ¬ ltRow b m) :
    ¬ ltRow a m := by
  unfold ltRow at *
  omega

theorem bubblePass_nil (k : ℕ) : bubblePass [] k = [] := by
  cases k <;> rfl

theorem bubblePass_single (a : LeagueTable) (k : ℕ) : bubblePass [a] k = [a] := by
  cases k <;> rfl

theorem bubblePass_zero (l : List LeagueTable) : bubblePass l 0 = l := by
  cases l with
  | nil => rfl
  | cons a rest => cases rest <;> rfl

theorem bubblePass_perm : ∀ (k : ℕ) (l : List LeagueTable), List.Perm (bubblePass l k) l := by
  intro k
  induction k with
  | zero => intro l; rw [bubblePass_zero]
  | succ k ih =>
    intro l
    match l with
    | [] => rw [bubblePass_nil]
    | [a] => rw [bubblePass_single]
    | a :: b :: rest =>
      show List.Perm (if ltRow a b then b :: bubblePass (a :: rest) k
        else a :: bubblePass (b :: rest) k) (a :: b :: rest)
      by_cases h : ltRow a b
      · rw [if_pos h]
        exact (List.Perm.cons b (ih (a :: rest))).trans (List.Perm.swap a b rest)
      · rw [if_neg h]
        exact List.Perm.cons a (ih (b :: rest))

theorem bubblePass_last_min : ∀ (k : ℕ) (l : List LeagueTable), l ≠ [] → l.length ≤ k + 1 →
    ∃ l' m, bubblePass l k = l' ++ [m] ∧ ∀ x ∈ l, ¬ ltRow x m := by
  intro k
  induction k with
  | zero =>
    intro l hne hlen
    match l with
    | [a] =>
      refine ⟨[], a, by rw [bubblePass_zero]; rfl, ?_⟩
      intro x hx
      rw [List.mem_singleton] at hx
      subst hx
      exact ltRow_irrefl x
    | a :: b :: rest => simp at hlen
  | succ k ih =>
    intro l hne hlen
    match l with
    | [a] =>
      refine ⟨[], a, bubblePass_single a (k + 1), ?_⟩
      intro x hx
      rw [List.mem_singleton] at hx
      subst hx
      exact ltRow_irrefl x
    | a :: b :: rest =>
      show ∃ l' m, (if ltRow a b then b :: bubblePass (a :: rest) k
        else a :: bubblePass (b :: rest) k) = l' ++ [m] ∧ _
      by_cases h : ltRow a b
      · rw [if_pos h]
        obtain ⟨l'', m, heq, hmin⟩ := ih (a :: rest) (by simp)
          (by simp at hlen ⊢; omega)
        refine ⟨b :: l'', m, by rw [heq]; rfl, ?_⟩
        intro x hx
        rcases List.mem_cons.mp hx with hxa | hx'
        · rw [hxa]
          exact hmin a (by simp)
        · rcases List.mem_cons.mp hx' with hxb | hx''
          · rw [hxb]
            exact not_ltRow_of_ltRow_left h (hmin a (by simp))
          · exact hmin x (by simp [hx''])
      · rw [if_neg h]
        obtain ⟨l'', m, heq, hmin⟩ := ih (b :: rest) (by simp)
          (by simp at hlen ⊢; omega)
        refine ⟨a :: l'', m, by rw [heq]; rfl, ?_⟩
        intro x hx
        rcases List.mem_cons.mp hx with hxa | hx'
        · rw [hxa]
          exact not_ltRow_trans h (hmin b (by simp))
        · exact hmin x hx'

theorem bubblePass_append_fixed : ∀ (k : ℕ) (l' : List LeagueTable) (m : LeagueTable),
    (∀ x ∈ l', ¬ ltRow x m) → bubblePass (l' ++ [m]) k = bubblePass l' k ++ [m] := by
  intro k
  induction k with
  | zero =>
    intro l' m _
    rw [bubblePass_zero, bubblePass_zero]
  | succ k ih =>
    intro l' m hmin
    match l' with
    | [] =>
      rw [bubblePass_nil]
      exact bubblePass_single m (k + 1)
    | [a] =>
      show (if ltRow a m then m :: bubblePass [a] k else a :: bubblePass [m] k) = _
      rw [if_neg (hmin a (by simp)), bubblePass_single, bubblePass_single]
      rfl
    | a :: b :: rest =>
      have hunfold : bubblePass (a :: b :: rest) (k + 1) =
          if ltRow a b then b :: bubblePass (a :: rest) k
          else a :: bubblePass (b :: rest) k := rfl
      show (if ltRow a b then b :: bubblePass (a :: rest ++ [m]) k
        else a :: bubblePass (b :: rest ++ [m]) k) = _
      rw [hunfold]
      by_cases h : ltRow a b
      · rw [if_pos h, if_pos h, ih (a :: rest) m (fun x hx => hmin x (by
          rcases List.mem_cons.mp hx with h1 | h1
          · simp [h1]
          · simp [h1]))]
        rfl
      · rw [if_neg h, if_neg h, ih (b :: rest) m (fun x hx => hmin x (by
          rcases List.mem_cons.mp hx with h1 | h1
          · simp [h1]
          · simp [h1]))]
        rfl

theorem bubbleSortPasses_perm : ∀ (k : ℕ) (l : List LeagueTable),
    List.Perm (bubbleSortPasses l k) l := by
  intro k
  induction k with
  | zero => intro l; exact List.Perm.refl l
  | succ k ih =>
    intro l
    exact (ih (bubblePass l (k + 1))).trans (bubblePass_perm (k + 1) l)

theorem bubbleSortPasses_append : ∀ (k : ℕ) (l' : List LeagueTable) (m : LeagueTable),
    (∀ x ∈ l', ¬ ltRow x m) →
    bubbleSortPasses (l' ++ [m]) k = bubbleSortPasses l' k ++ [m] := by
  intro k
  induction k with
  | zero => intro l' m _; rfl
  | succ k ih =>
    intro l' m hmin
    show bubbleSortPasses (bubblePass (l' ++ [m]) (k + 1)) k = _
    rw [bubblePass_append_fixed (k + 1) l' m hmin]
    rw [ih (bubblePass l' (k + 1)) m (fun x hx =>
      hmin x ((bubblePass_perm (k + 1) l').subset hx))]
    rfl

theorem bubbleSortPasses_sorted : ∀ (k : ℕ) (l : List LeagueTable), l.length ≤ k + 1 →
    List.Pairwise (fun a b => ¬ ltRow a b) (bubbleSortPasses l k) := by
  intro k
  induction k with
  | zero =>
    intro l hlen
    match l with
    | [] => exact List.Pairwise.nil
    | [a] => exact List.pairwise_singleton _ a
    | a :: b :: rest => simp at hlen
  | succ k ih =>
    intro l hlen
    by_cases hemp : l = []
    · subst hemp
      show List.Pairwise _ (bubbleSortPasses (bubblePass [] (k + 1)) k)
      rw [bubblePass_nil]
      exact ih [] (by simp)
    · obtain ⟨l', m, heq, hmin⟩ := bubblePass_last_min (k + 1) l hemp (by omega)
      have hperm : List.Perm (l' ++ [m]) l := by
        rw [← heq]
        exact bubblePass_perm (k + 1) l
      have hlen' : l'.length ≤ k + 1 := by
        have := hperm.length_eq
        simp at this
        omega
      have hmin' : ∀ x ∈ l', ¬ ltRow x m := fun x hx =>
        hmin x (hperm.subset (List.mem_append_left [m] hx))
      show List.Pairwise _ (bubbleSortPasses (bubblePass l (k + 1)) k)
      rw [heq, bubbleSortPasses_append k l' m hmin']
      rw [List.pairwise_append]
      refine ⟨ih l' hlen', List.pairwise_singleton _ m, ?_⟩
      intro x hx y hy
      rw [List.mem_singleton] at hy
      subst hy
      exact hmin' x ((bubbleSortPasses_perm k l').subset hx)

theorem setPositionsFrom_map_position : ∀ (i : ℕ) (l : List LeagueTable),
    (setPositionsFrom i l).map (fun row => row.position) = List.range' (i + 1) l.length := by
  intro i l
  induction l generalizing i with
  | nil => rfl
  | cons a rest ih =>
    show (i + 1) :: (setPositionsFrom (i + 1) rest).map (fun row => row.position) = _
    rw [ih (i + 1)]
    rfl

theorem setPositionsFrom_length : ∀ (i : ℕ) (l : List LeagueTable),
    (setPositionsFrom i l).length = l.length := by
  intro i l
  induction l generalizing i with
  | nil => rfl
  | cons a rest ih =>
    show (setPositionsFrom (i + 1) rest).length + 1 = rest.length + 1
    rw [ih (i + 1)]

theorem mem_setPositionsFrom : ∀ (i : ℕ) (l : List LeagueTable) (y : LeagueTable),
    y ∈ setPositionsFrom i l →
    ∃ b ∈ l, y.points = b.points ∧ y.goalDiff = b.goalDiff := by
  intro i l
  induction l generalizing i with
  | nil => intro y hy; cases hy
  | cons a rest ih =>
    intro y hy
    rcases List.mem_cons.mp hy with hya | hy'
    · exact ⟨a, by simp, by rw [hya], by rw [hya]⟩
    · obtain ⟨b, hb, h1, h2⟩ := ih (i + 1) y hy'
      exact ⟨b, by simp [hb], h1, h2⟩

theorem setPositionsFrom_pairwise : ∀ (i : ℕ) (l : List LeagueTable),
    List.Pairwise (fun a b => ¬ ltRow a b) l →
    List.Pairwise (fun a b => ¬ ltRow a b) (setPositionsFrom i l) := by
  intro i l
  induction l generalizing i with
  | nil => intro _; exact List.Pairwise.nil
  | cons a rest ih =>
    intro hl
    rw [List.pairwise_cons] at hl
    show List.Pairwise _ ({ a with position := i + 1 } :: setPositionsFrom (i + 1) rest)
    rw [List.pairwise_cons]
    refine ⟨?_, ih (i + 1) hl.2⟩
    intro y hy
    obtain ⟨b, hb, h1, h2⟩ := mem_setPositionsFrom (i + 1) rest y hy
    have := hl.1 b hb
    unfold ltRow at this ⊢
    rw [h1, h2]
    simpa using this

/-- C10. After the standings update for a finished match, the re-sorted
league table is in non-increasing order of points, rows of equal points
are in non-increasing order of goal difference, and every row's
`position` field is its 1-based rank: the position column reads
`1, 2, ..., n`. -/
theorem c10_updateTeamStats_sorted_and_ranked (table : List LeagueTable) (teamID : ℕ)
    (points : ℤ) (wins draws losses goalsFor goalsAgainst : ℕ) :
    List.Pairwise (fun a b =>
        b.points ≤ a.points ∧ (a.points = b.points → b.goalDiff ≤ a.goalDiff))
      (updateTeamStats table teamID points wins draws losses goalsFor goalsAgainst) ∧
    (updateTeamStats table teamID points wins draws losses goalsFor goalsAgainst).map
        (fun row => row.position) =
      List.range' 1
        (updateTeamStats table teamID points wins draws losses goalsFor goalsAgainst).length := by
  constructor
  · have hsorted : List.Pairwise (fun a b => ¬ ltRow a b)
        (updateTeamStats table teamID points wins draws losses goalsFor goalsAgainst) := by
      unfold updateTeamStats sortLeagueTable
      apply setPositionsFrom_pairwise
      apply bubbleSortPasses_sorted
      omega
    exact hsorted.imp (by intro a b h; unfold ltRow at h; omega)
  · unfold updateTeamStats sortLeagueTable
    rw [setPositionsFrom_map_position, setPositionsFrom_length]

/-- C1. The total fixture count `N × (N − 1)` is produced, but the
rotate-and-fix pairing is wrong: for the 4-team league `[0, 1, 2, 3]`
teams 2 and 3 never meet, the pair `(0, 1)` meets four times, team 0
appears in 8 fixtures and team 2 in only 4, refuting "every unordered
pair appears in exactly two fixtures" and "every team appears in exactly
`2 × (N − 1)` fixtures" (with `2 × (N − 1) = 6` here). -/
theorem c1_roundRobin_pairing_bug :
    (generateSeasonSchedule LeaguePremier [0, 1, 2, 3]).length = 4 * 3 ∧
    fixturesBetween (generateSeasonSchedule LeaguePremier [0, 1, 2, 3]) 2 3 = 0 ∧
    fixturesBetween (generateSeasonSchedule LeaguePremier [0, 1, 2, 3]) 0 1 = 4 ∧
    fixturesOf (generateSeasonSchedule LeaguePremier [0, 1, 2, 3]) 0 = 8 ∧
    fixturesOf (generateSeasonSchedule LeaguePremier [0, 1, 2, 3]) 2 = 4 := by
  decide
